import Mathlib

/-!
# Parachute drop animation (`OPENGL/OpenGL_Project.cpp`)

A shallow embedding of the animation state machine of the scene: the
file-scope animation variables become one record `State`, the timer callback
`update` becomes a function on that record, and `resetAnimation` / `keyboard`
become functions as well.

Modelling conventions.

* `float` is modelled by the rationals: every constant is the decimal written
  in the source and every operation is exact.
* `rand()` and `glutGet(GLUT_ELAPSED_TIME)` are inputs of the tick; `sin` and
  `cos` of `<cmath>` are parameters (`Libm`).
* The rendering calls (`glutPostRedisplay`, `glutTimerFunc`, `printf`) do not
  touch the animation variables and are left out.
-/

namespace ParachuteSim

/-! ## Constants -/

/-- Source: `const float WORLD_WIDTH = 4.0f;` -/
def WORLD_WIDTH : ℚ := 4.0
/-- Source: `const float WORLD_HEIGHT = 4.0f;` -/
def WORLD_HEIGHT : ℚ := 4.0
/-- Source: `float gravity = -0.00005f;` (never assigned afterwards). -/
def gravity : ℚ := -0.00005
/-- Source: `const float ground_level = -1.0f;` -/
def ground_level : ℚ := -1.0
/-- Source: `const float LANDING_SLOWDOWN_DISTANCE = 0.5f;` -/
def LANDING_SLOWDOWN_DISTANCE : ℚ := 0.5
/-- Source: `const float LANDING_DRAG_FACTOR = 0.0001f;` -/
def LANDING_DRAG_FACTOR : ℚ := 0.0001
/-- Source: `const float POST_LAND_SWAY_DURATION = 2.0f;` -/
def POST_LAND_SWAY_DURATION : ℚ := 2.0
/-- Source: `const float PARACHUTE_COLLAPSE_SPEED = 0.005f;` -/
def PARACHUTE_COLLAPSE_SPEED : ℚ := 0.005
/-- Source: `const float BASE_CLOUD1_SPEED = 0.001f;` -/
def BASE_CLOUD1_SPEED : ℚ := 0.001
/-- Source: `const float BASE_CLOUD2_SPEED = 0.0008f;` -/
def BASE_CLOUD2_SPEED : ℚ := 0.0008
/-- Source: `const float BASE_CLOUD3_SPEED = 0.0012f;` -/
def BASE_CLOUD3_SPEED : ℚ := 0.0012
/-- Source: `const float RUN_SPEED = 0.008f;` -/
def RUN_SPEED : ℚ := 0.008

/-! ## Data model -/

/-- The record `struct Butterfly`. -/
structure Butterfly where
  x : ℚ
  y : ℚ
  initial_spawn_x : ℚ
  initial_spawn_y : ℚ
  wing_angle : ℚ
  flight_phase_offset : ℚ
  flight_speed_mult_x : ℚ
  flight_speed_mult_y : ℚ
  flight_amplitude_x : ℚ
  flight_amplitude_y : ℚ
  color0 : ℚ
  color1 : ℚ
  color2 : ℚ

/-- The file-scope animation variables, in the order of their declaration. -/
structure State where
  y_pos : ℚ
  velocity : ℚ
  sway_phase : ℚ
  sway_amplitude : ℚ
  landed : Bool
  jumped : Bool
  plane_x : ℚ
  drift_x : ℚ
  plane_stopped : Bool
  wind_strength : ℚ
  post_land_sway_timer : ℚ
  parachute_current_ry_scale : ℚ
  parachute_relative_y_offset_after_detach : ℚ
  parachute_detaching_and_falling : Bool
  cloud1_x : ℚ
  cloud2_x : ℚ
  cloud3_x : ℚ
  butterflies : List Butterfly
  isRunning : Bool
  run_phase : ℚ

/-- The functions `sin` and `cos` of `<cmath>`, taken as parameters. -/
structure Libm where
  sin : ℚ → ℚ
  cos : ℚ → ℚ

/-- What one call of `update` reads from outside the animation variables:
`rnd` is the quotient `rand() / (float)RAND_MAX` of the falling branch and
`elapsed` the value of `glutGet(GLUT_ELAPSED_TIME)` in milliseconds. -/
structure TickInput where
  rnd : ℚ
  elapsed : ℤ

/-- What `initButterflies` reads from outside: `draw n` is the quotient
`rand() / RAND_MAX` of its `n`-th call of `rand()`, and `wing i` the value the
default-initialised field `wing_angle` of the `i`-th butterfly happens to
hold (the function never assigns it). -/
structure Seed where
  draw : ℕ → ℚ
  wing : ℕ → ℚ

/-! ## `initButterflies`, `resetAnimation`, `keyboard` -/

/-- The body of the loop of `initButterflies` for index `i`: ten calls of
`rand()`, in source order. -/
def newButterfly (sd : Seed) (i : ℕ) : Butterfly :=
  let initial_spawn_x := sd.draw (10 * i) * WORLD_WIDTH - (WORLD_WIDTH / 2)
  let initial_spawn_y := sd.draw (10 * i + 1) * 0.8 + (ground_level - 0.5)
  { initial_spawn_x := initial_spawn_x
    initial_spawn_y := initial_spawn_y
    x := initial_spawn_x
    y := initial_spawn_y
    wing_angle := sd.wing i
    flight_phase_offset := sd.draw (10 * i + 2) * 100.0
    flight_speed_mult_x := 0.1 + sd.draw (10 * i + 3) * 0.2
    flight_speed_mult_y := 0.1 + sd.draw (10 * i + 4) * 0.2
    flight_amplitude_x := 0.02 + sd.draw (10 * i + 5) * 0.05
    flight_amplitude_y := 0.02 + sd.draw (10 * i + 6) * 0.05
    color0 := sd.draw (10 * i + 7)
    color1 := sd.draw (10 * i + 8)
    color2 := sd.draw (10 * i + 9) }

/-- The function `initButterflies(count)`: the vector is cleared and `count` butterflies
are pushed. -/
def initButterflies (sd : Seed) (count : ℕ) : List Butterfly :=
  (List.range count).map (newButterfly sd)

/-- The function `resetAnimation()`. -/
def resetAnimation (sd : Seed) (s : State) : State :=
  { s with
    y_pos := 2.0
    velocity := 0.0
    sway_phase := 0.0
    sway_amplitude := 0.2
    landed := false
    jumped := false
    plane_x := -2.5
    drift_x := 0.0
    plane_stopped := false
    post_land_sway_timer := 0.0
    parachute_current_ry_scale := 1.0
    parachute_detaching_and_falling := false
    parachute_relative_y_offset_after_detach := 0.15
    wind_strength := 1.0
    isRunning := false
    run_phase := 0.0
    butterflies := initButterflies sd 5 }

/-- The callback `keyboard(key, x, y)`; the mouse position is not read. -/
def keyboard (sd : Seed) (key : Char) (s : State) : State :=
  if key = 'r' ∨ key = 'R' then
    resetAnimation sd s
  else if key = '+' then
    let w := s.wind_strength + 0.5
    { s with wind_strength := if w > 5.0 then 5.0 else w }
  else if key = '-' then
    let w := s.wind_strength - 0.5
    { s with wind_strength := if w < 0.0 then 0.0 else w }
  else
    s

/-- The animation variables when `glutMainLoop` is entered: the initialisers
of the globals (`parachute_relative_y_offset_after_detach` has none and is
zero-initialised) and the `initButterflies(5)` of `main`. -/
def initialState (sd : Seed) : State :=
  { y_pos := 2.0
    velocity := 0.0
    sway_phase := 0.0
    sway_amplitude := 0.2
    landed := false
    jumped := false
    plane_x := -2.5
    drift_x := 0.0
    plane_stopped := false
    wind_strength := 1.0
    post_land_sway_timer := 0.0
    parachute_current_ry_scale := 1.0
    parachute_relative_y_offset_after_detach := 0
    parachute_detaching_and_falling := false
    cloud1_x := -2.2
    cloud2_x := 1.0
    cloud3_x := -1.0
    butterflies := initButterflies sd 5
    isRunning := false
    run_phase := 0.0 }

/-! ## `update` -/

/-- Lines 363-370: the three clouds. -/
def updateClouds (s : State) : State :=
  let c1 := s.cloud1_x + BASE_CLOUD1_SPEED * s.wind_strength
  let c2 := s.cloud2_x + BASE_CLOUD2_SPEED * s.wind_strength
  let c3 := s.cloud3_x + BASE_CLOUD3_SPEED * s.wind_strength
  { s with
    cloud1_x := if c1 > WORLD_WIDTH / 2 + 0.3 then -WORLD_WIDTH / 2 - 0.3 else c1
    cloud2_x := if c2 > WORLD_WIDTH / 2 + 0.3 then -WORLD_WIDTH / 2 - 0.3 else c2
    cloud3_x := if c3 > WORLD_WIDTH / 2 + 0.3 then -WORLD_WIDTH / 2 - 0.3 else c3 }

/-- Lines 375-382: the body of the butterfly loop at time `current_time`. -/
def updateButterfly (m : Libm) (current_time : ℚ) (b : Butterfly) : Butterfly :=
  let x0 := b.initial_spawn_x +
    (b.flight_amplitude_x * m.sin (current_time * b.flight_speed_mult_x + b.flight_phase_offset))
  let y0 := b.initial_spawn_y +
    (b.flight_amplitude_y * m.cos (current_time * b.flight_speed_mult_y + b.flight_phase_offset * 1.5))
  let wing_angle := 45.0 * m.sin (current_time * 5.0 + b.flight_phase_offset * 2.0)
  let x1 := if x0 > WORLD_WIDTH / 2 + 0.1 then -WORLD_WIDTH / 2 - 0.1 else x0
  let x2 := if x1 < -WORLD_WIDTH / 2 - 0.1 then WORLD_WIDTH / 2 + 0.1 else x1
  let y1 := if y0 > WORLD_HEIGHT / 2 + 0.1 then -WORLD_HEIGHT / 2 - 0.1 else y0
  let y2 := if y1 < -WORLD_HEIGHT / 2 - 0.1 then WORLD_HEIGHT / 2 + 0.1 else y1
  { b with x := x2, y := y2, wing_angle := wing_angle }

/-- Lines 373-383: the butterfly loop. -/
def updateButterflies (m : Libm) (inp : TickInput) (s : State) : State :=
  let current_time : ℚ := (inp.elapsed : ℚ) / 1000.0
  { s with butterflies := s.butterflies.map (updateButterfly m current_time) }

/-- Lines 386-392: the plane before the jump. -/
def planeApproach (s : State) : State :=
  if !s.plane_stopped then
    let px := s.plane_x + 0.005
    if px ≥ 0.0 ∧ s.jumped = false then
      { s with plane_x := 0.0, plane_stopped := true }
    else
      { s with plane_x := px }
  else
    s

/-- Lines 395-401: the jump. -/
def triggerJump (s : State) : State :=
  if s.plane_stopped = true ∧ s.jumped = false then
    { s with
      jumped := true
      y_pos := 1.45
      parachute_relative_y_offset_after_detach := 0.15
      velocity := -0.0005
      drift_x := s.plane_x }
  else
    s

/-- Line 418: `human_feet_relative_y`, from the locals of lines 415-417. -/
def human_feet_relative_y : ℚ :=
  let human_base_y_offset : ℚ := -0.05
  let human_scale : ℚ := 0.25
  let human_height_approx : ℚ := (0.22 + 0.15) * human_scale
  human_base_y_offset - human_height_approx

/-- Line 420: `desired_landing_world_y`. -/
def desired_landing_world_y : ℚ := ground_level - 0.35

/-- Line 419: `current_feet_world_y`. -/
def current_feet_world_y (s : State) : ℚ := s.y_pos + human_feet_relative_y

/-- Lines 423-431: the velocity left by the branch that integrates the fall,
from the velocity `v` and the feet altitude `feet` it starts with. -/
def fallVelocity (v feet : ℚ) : ℚ :=
  let v1 := v + gravity
  let terminal_velocity_limit : ℚ := -0.002
  let v2 := max v1 terminal_velocity_limit
  let distance_to_ground_feet := feet - desired_landing_world_y
  if distance_to_ground_feet < LANDING_SLOWDOWN_DISTANCE ∧ distance_to_ground_feet > 0 then
    let slowdown_factor := distance_to_ground_feet / LANDING_SLOWDOWN_DISTANCE
    min (v2 + LANDING_DRAG_FACTOR * (1.0 - slowdown_factor)) 0.0
  else
    v2

/-- Lines 406-440: STATE 1, falling. -/
def stepFalling (inp : TickInput) (s : State) : State :=
  let sway_phase := s.sway_phase + 0.12
  let scaled_velocity_factor := |s.velocity| * 1000.0
  let wind_effect := s.wind_strength * scaled_velocity_factor
  let drift0 := s.drift_x + (inp.rnd * 2.0 - 1.0) * 0.005 * wind_effect
  let drift_x := max (-WORLD_WIDTH / 2 + 0.2) (min (WORLD_WIDTH / 2 - 0.2) drift0)
  if current_feet_world_y s > desired_landing_world_y then
    let velocity := fallVelocity s.velocity (current_feet_world_y s)
    { s with
      sway_phase := sway_phase
      drift_x := drift_x
      velocity := velocity
      y_pos := s.y_pos + velocity }
  else
    { s with
      sway_phase := sway_phase
      drift_x := drift_x
      y_pos := desired_landing_world_y - human_feet_relative_y
      velocity := 0.0
      landed := true
      post_land_sway_timer := POST_LAND_SWAY_DURATION }

/-- Lines 446-465: STATE 2A, the parachute collapsing. -/
def stepCollapsing (s : State) : State :=
  if s.post_land_sway_timer > 0 then
    let timer := s.post_land_sway_timer - (16.0 / 1000.0)
    let amp := 0.2 * (timer / POST_LAND_SWAY_DURATION)
    let scale := s.parachute_current_ry_scale - (PARACHUTE_COLLAPSE_SPEED * 0.5)
    { s with
      post_land_sway_timer := timer
      sway_amplitude := if amp < 0 then 0 else amp
      parachute_current_ry_scale := if scale < 0.05 then 0.05 else scale }
  else
    let scale0 := s.parachute_current_ry_scale - PARACHUTE_COLLAPSE_SPEED
    let scale := if scale0 < 0.05 then 0.05 else scale0
    let offset := s.parachute_relative_y_offset_after_detach - (PARACHUTE_COLLAPSE_SPEED * 1.5)
    let parachute_bottom_world_y := (s.y_pos + offset) - (0.1 * scale)
    if parachute_bottom_world_y ≤ ground_level then
      { s with
        parachute_detaching_and_falling := true
        parachute_current_ry_scale := scale
        parachute_relative_y_offset_after_detach := ground_level + (0.1 * scale) - s.y_pos
        isRunning := true }
    else
      { s with
        parachute_detaching_and_falling := true
        parachute_current_ry_scale := scale
        parachute_relative_y_offset_after_detach := offset }

/-- Lines 469-474: STATE 2B, running. -/
def stepRunning (s : State) : State :=
  let d := s.drift_x + RUN_SPEED
  let human_width_buffer : ℚ := 0.2
  { s with
    drift_x := if d > WORLD_WIDTH / 2 + human_width_buffer then -WORLD_WIDTH / 2 - human_width_buffer else d
    run_phase := s.run_phase + 0.3 }

/-- Lines 403-477: the parachutist. -/
def stepParachutist (inp : TickInput) (s : State) : State :=
  if s.jumped then
    if !s.landed then
      stepFalling inp s
    else if !s.isRunning then
      stepCollapsing s
    else
      stepRunning s
  else
    s

/-- Lines 480-482: the plane flies away after the jump. -/
def planeDepart (s : State) : State :=
  if s.jumped = true ∧ s.plane_stopped = true ∧ s.plane_x ≤ WORLD_WIDTH / 2 + 0.5 then
    { s with plane_x := s.plane_x + 0.005 }
  else
    s

/-- The animation variables at line 403, where the parachutist is handled:
scenery, plane and jump trigger have run. -/
def beforeParachutist (m : Libm) (inp : TickInput) (s : State) : State :=
  triggerJump (planeApproach (updateButterflies m inp (updateClouds s)))

/-- The callback `update(value)`; the timer argument is not read. -/
def update (m : Libm) (inp : TickInput) (s : State) : State :=
  planeDepart (stepParachutist inp (beforeParachutist m inp s))

/-! ## Runs -/

/-- The state after `n` consecutive timer callbacks, the `i`-th with input
`inputs i`. -/
def runTicks (m : Libm) (inputs : ℕ → TickInput) : ℕ → State → State
  | 0, s => s
  | n + 1, s => update m (inputs n) (runTicks m inputs n s)

/-- The states the program gets to from `s0` by timer callbacks and key
presses, with any inputs. -/
inductive ReachableFrom (m : Libm) (s0 : State) : State → Prop
  | start : ReachableFrom m s0 s0
  | tick (inp : TickInput) {s : State} :
      ReachableFrom m s0 s → ReachableFrom m s0 (update m inp s)
  | key (sd : Seed) (c : Char) {s : State} :
      ReachableFrom m s0 s → ReachableFrom m s0 (keyboard sd c s)

/-- The states the program can be in between two callbacks: those it gets to
from an initial state. -/
def Reachable (m : Libm) (s : State) : Prop :=
  ∃ sd : Seed, ReachableFrom m (initialState sd) s

/-! ## Invariants and sample data -/

/-- Distance of the feet above the landing altitude (line 426). -/
def feetDistance (s : State) : ℚ := current_feet_world_y s - desired_landing_world_y

/-- The flag invariant of the state machine. -/
def FlagInv (s : State) : Prop :=
  (s.landed = true → s.jumped = true) ∧
  (s.isRunning = true → s.landed = true ∧ s.parachute_detaching_and_falling = true)

/-- A falling state from which the drag stops the parachutist above the
landing altitude: either the feet are still 0.1 above it, or the braking
distance at a deceleration of 0.00003 per tick leaves a margin of 0.03. -/
def HoverInv (s : State) : Prop :=
  s.jumped = true ∧ s.landed = false ∧ -0.002 ≤ s.velocity ∧ s.velocity ≤ 0 ∧
  (0.1 ≤ feetDistance s ∨ 0.03 ≤ feetDistance s - s.velocity ^ 2 / 0.00006)

/-- What keeps the program from landing: nothing has landed, the plane has
not stopped before the jump, and after the jump the hover condition holds. -/
def AirborneInv (s : State) : Prop :=
  s.landed = false ∧ (s.jumped = false → s.plane_stopped = false) ∧
  (s.jumped = true → HoverInv s)

/-- A `Libm` whose two functions are constantly zero, for sample runs. -/
def zeroLibm : Libm := ⟨fun _ => 0, fun _ => 0⟩

/-- A `Seed` whose draws are all zero, for sample runs. -/
def zeroSeed : Seed := ⟨fun _ => 0, fun _ => 0⟩

/-- A tick whose random quotient is `1` at clock value `0`. -/
def sampleInput : TickInput := ⟨1, 0⟩

/-- The run in which every tick reads `sampleInput`. -/
def sampleInputs : ℕ → TickInput := fun _ => sampleInput

/-- The state left by the 500th tick of the sample run: that of the jump. -/
def jumpTickState : State := runTicks zeroLibm sampleInputs 500 (initialState zeroSeed)

/-- The state left by the 1589th tick of the sample run: the feet are 0.49925
above the landing altitude, just inside the slowdown zone. -/
def slowdownEntryState : State := runTicks zeroLibm sampleInputs 1589 (initialState zeroSeed)

/-- The state of Scenario B: the jump has just been triggered and the wind
is switched off. -/
def scenarioB : State :=
  { initialState zeroSeed with
    jumped := true
    plane_stopped := true
    plane_x := 0.0
    y_pos := 1.45
    velocity := -0.0005
    parachute_relative_y_offset_after_detach := 0.15
    wind_strength := 0.0 }

/-- A just-landed state: what the landing branch leaves of `scenarioB` at the
landing altitude. -/
def justLanded : State :=
  { scenarioB with
    y_pos := desired_landing_world_y - human_feet_relative_y
    velocity := 0.0
    landed := true
    post_land_sway_timer := POST_LAND_SWAY_DURATION }

/-- The state left by the first tick of the sample run: the clouds have
moved. -/
def firstTickState : State := update zeroLibm sampleInput (initialState zeroSeed)

/-- The state left by the 1000th tick of the sample run: the plane has left
the scene. -/
def planeGoneState : State := runTicks zeroLibm sampleInputs 1000 (initialState zeroSeed)

/-- The wind strengths the keys can produce: the multiples of 0.5 from 0.0
to 5.0. -/
def WindOnGrid (w : ℚ) : Prop := ∃ k : ℕ, k ≤ 10 ∧ w = (k : ℚ) / 2

/-- What the functions `sin` and `cos` of `<cmath>` guarantee about their
values: they lie between -1 and 1. -/
def SinCosBounded (m : Libm) : Prop :=
  ∀ x : ℚ, (-1 ≤ m.sin x ∧ m.sin x ≤ 1) ∧ (-1 ≤ m.cos x ∧ m.cos x ≤ 1)

/-- The ranges in which `initButterflies` draws the spawn point and the
amplitudes of a butterfly: x in [-2, 2], y in [-1.5, -0.7], amplitudes in
[0.02, 0.07]. -/
def InSpawnRange (b : Butterfly) : Prop :=
  (-2 ≤ b.initial_spawn_x ∧ b.initial_spawn_x ≤ 2) ∧
  (-1.5 ≤ b.initial_spawn_y ∧ b.initial_spawn_y ≤ -0.7) ∧
  (0.02 ≤ b.flight_amplitude_x ∧ b.flight_amplitude_x ≤ 0.07) ∧
  (0.02 ≤ b.flight_amplitude_y ∧ b.flight_amplitude_y ≤ 0.07)

/-- A `Libm` whose functions sit at the ends of their range, for sample
butterflies. -/
def extremeLibm : Libm := ⟨fun _ => 1, fun _ => -1⟩

/-- A landed state whose sway timer has expired: `justLanded` with the timer
at 0. -/
def swayExpired : State := { justLanded with post_land_sway_timer := 0.0 }

/-- A falling state whose feet are exactly at the landing altitude. -/
def touchdownState : State := { scenarioB with y_pos := -1.2075, velocity := -0.002 }

/-- A falling state at rest with the feet 0.25 above the landing altitude. -/
def hoverState : State := { scenarioB with y_pos := -0.9575, velocity := 0.0 }

/-- Two states with the same plane position, the same flags `plane_stopped`,
`jumped` and `landed`, the same altitude and the same velocity. -/
def VerticalAgree (s t : State) : Prop :=
  s.plane_x = t.plane_x ∧ s.plane_stopped = t.plane_stopped ∧ s.jumped = t.jumped ∧
  s.landed = t.landed ∧ s.y_pos = t.y_pos ∧ s.velocity = t.velocity

/-- The state `scenarioB` in a strong wind and with a drift. -/
def scenarioBWindy : State := { scenarioB with wind_strength := 5.0, drift_x := 1.0 }

/-- A tick whose random quotient is `0` at clock value `16`. -/
def otherInput : TickInput := ⟨0, 16⟩

/-- What the event loop delivers: a timer callback with its input, or a key
press (with the seed a reset would use). -/
inductive Event where
  | tick (inp : TickInput)
  | key (sd : Seed) (c : Char)

/-- The state after an event. -/
def applyEvent (m : Libm) : Event → State → State
  | Event.tick inp, s => update m inp s
  | Event.key sd c, s => keyboard sd c s

/-- The state after a sequence of events, the head first. -/
def runEvents (m : Libm) : List Event → State → State
  | [], s => s
  | e :: es, s => runEvents m es (applyEvent m e s)

/-- The number of timer callbacks in a sequence of events. -/
def tickCount : List Event → ℕ
  | [] => 0
  | Event.tick _ :: es => tickCount es + 1
  | Event.key _ _ :: es => tickCount es

/-- No event of the sequence is a press of `r` or `R`. -/
def NoReset : List Event → Prop
  | [] => True
  | Event.tick _ :: es => NoReset es
  | Event.key _ c :: es => (c ≠ 'r' ∧ c ≠ 'R') ∧ NoReset es

/-- The plane and the jump flag after `n` ticks of a run without reset: up to
tick 499 the plane approaches, from tick 500 on the jump has happened. -/
def PlaneInv (n : ℕ) (s : State) : Prop :=
  (n ≤ 499 → s.plane_x = -2.5 + 0.005 * (n : ℚ) ∧ s.plane_stopped = false ∧
    s.jumped = false ∧ s.landed = false) ∧
  (500 ≤ n → s.jumped = true ∧ s.plane_stopped = true)

/-- A sample sequence of events: `+`, 499 ticks, `-`, one more tick. -/
def sampleEvents : List Event :=
  Event.key zeroSeed '+' :: (List.replicate 499 (Event.tick sampleInput) ++
    [Event.key zeroSeed '-', Event.tick sampleInput])

/-- The state after seven presses of `+` from the initial state: the wind
strength is 4.5, one step below the cap. -/
def nearCapState : State :=
  runEvents zeroLibm (List.replicate 7 (Event.key zeroSeed '+')) (initialState zeroSeed)

/-! ## Basic facts about one tick -/

theorem beforeParachutist_landed (m : Libm) (inp : TickInput) (s : State) :
    (beforeParachutist m inp s).landed = s.landed := by
  simp only [beforeParachutist, triggerJump, planeApproach, updateButterflies, updateClouds]
  split_ifs <;> rfl

theorem beforeParachutist_jumped_of_jumped (m : Libm) (inp : TickInput) (s : State)
    (hj : s.jumped = true) : (beforeParachutist m inp s).jumped = true := by
  simp only [beforeParachutist, triggerJump, planeApproach, updateButterflies, updateClouds]
  split_ifs <;> simp_all

/-! ### Frame lemmas: the variables a block of `update` leaves alone -/

@[simp] theorem updateClouds_y_pos (s : State) :
    (updateClouds s).y_pos = s.y_pos := by
  rfl

@[simp] theorem updateClouds_velocity (s : State) :
    (updateClouds s).velocity = s.velocity := by
  rfl

@[simp] theorem updateClouds_landed (s : State) :
    (updateClouds s).landed = s.landed := by
  rfl

@[simp] theorem updateClouds_jumped (s : State) :
    (updateClouds s).jumped = s.jumped := by
  rfl

@[simp] theorem updateClouds_drift_x (s : State) :
    (updateClouds s).drift_x = s.drift_x := by
  rfl

@[simp] theorem updateClouds_wind_strength (s : State) :
    (updateClouds s).wind_strength = s.wind_strength := by
  rfl

@[simp] theorem updateClouds_post_land_sway_timer (s : State) :
    (updateClouds s).post_land_sway_timer = s.post_land_sway_timer := by
  rfl

@[simp] theorem updateClouds_parachute_current_ry_scale (s : State) :
    (updateClouds s).parachute_current_ry_scale = s.parachute_current_ry_scale := by
  rfl

@[simp] theorem updateClouds_parachute_relative_y_offset_after_detach (s : State) :
    (updateClouds s).parachute_relative_y_offset_after_detach = s.parachute_relative_y_offset_after_detach := by
  rfl

@[simp] theorem updateClouds_parachute_detaching_and_falling (s : State) :
    (updateClouds s).parachute_detaching_and_falling = s.parachute_detaching_and_falling := by
  rfl

@[simp] theorem updateClouds_isRunning (s : State) :
    (updateClouds s).isRunning = s.isRunning := by
  rfl

@[simp] theorem updateClouds_plane_x (s : State) :
    (updateClouds s).plane_x = s.plane_x := by
  rfl

@[simp] theorem updateClouds_plane_stopped (s : State) :
    (updateClouds s).plane_stopped = s.plane_stopped := by
  rfl

@[simp] theorem updateButterflies_y_pos (m : Libm) (inp : TickInput) (s : State) :
    (updateButterflies m inp s).y_pos = s.y_pos := by
  rfl

@[simp] theorem updateButterflies_velocity (m : Libm) (inp : TickInput) (s : State) :
    (updateButterflies m inp s).velocity = s.velocity := by
  rfl

@[simp] theorem updateButterflies_landed (m : Libm) (inp : TickInput) (s : State) :
    (updateButterflies m inp s).landed = s.landed := by
  rfl

@[simp] theorem updateButterflies_jumped (m : Libm) (inp : TickInput) (s : State) :
    (updateButterflies m inp s).jumped = s.jumped := by
  rfl

@[simp] theorem updateButterflies_drift_x (m : Libm) (inp : TickInput) (s : State) :
    (updateButterflies m inp s).drift_x = s.drift_x := by
  rfl

@[simp] theorem updateButterflies_wind_strength (m : Libm) (inp : TickInput) (s : State) :
    (updateButterflies m inp s).wind_strength = s.wind_strength := by
  rfl

@[simp] theorem updateButterflies_post_land_sway_timer (m : Libm) (inp : TickInput) (s : State) :
    (updateButterflies m inp s).post_land_sway_timer = s.post_land_sway_timer := by
  rfl

@[simp] theorem updateButterflies_parachute_current_ry_scale (m : Libm) (inp : TickInput) (s : State) :
    (updateButterflies m inp s).parachute_current_ry_scale = s.parachute_current_ry_scale := by
  rfl

@[simp] theorem updateButterflies_parachute_relative_y_offset_after_detach (m : Libm) (inp : TickInput) (s : State) :
    (updateButterflies m inp s).parachute_relative_y_offset_after_detach = s.parachute_relative_y_offset_after_detach := by
  rfl

@[simp] theorem updateButterflies_parachute_detaching_and_falling (m : Libm) (inp : TickInput) (s : State) :
    (updateButterflies m inp s).parachute_detaching_and_falling = s.parachute_detaching_and_falling := by
  rfl

@[simp] theorem updateButterflies_isRunning (m : Libm) (inp : TickInput) (s : State) :
    (updateButterflies m inp s).isRunning = s.isRunning := by
  rfl

@[simp] theorem updateButterflies_plane_x (m : Libm) (inp : TickInput) (s : State) :
    (updateButterflies m inp s).plane_x = s.plane_x := by
  rfl

@[simp] theorem updateButterflies_plane_stopped (m : Libm) (inp : TickInput) (s : State) :
    (updateButterflies m inp s).plane_stopped = s.plane_stopped := by
  rfl

@[simp] theorem planeApproach_y_pos (s : State) :
    (planeApproach s).y_pos = s.y_pos := by
  unfold planeApproach; dsimp only; split_ifs <;> rfl

@[simp] theorem planeApproach_velocity (s : State) :
    (planeApproach s).velocity = s.velocity := by
  unfold planeApproach; dsimp only; split_ifs <;> rfl

@[simp] theorem planeApproach_landed (s : State) :
    (planeApproach s).landed = s.landed := by
  unfold planeApproach; dsimp only; split_ifs <;> rfl

@[simp] theorem planeApproach_jumped (s : State) :
    (planeApproach s).jumped = s.jumped := by
  unfold planeApproach; dsimp only; split_ifs <;> rfl

@[simp] theorem planeApproach_drift_x (s : State) :
    (planeApproach s).drift_x = s.drift_x := by
  unfold planeApproach; dsimp only; split_ifs <;> rfl

@[simp] theorem planeApproach_wind_strength (s : State) :
    (planeApproach s).wind_strength = s.wind_strength := by
  unfold planeApproach; dsimp only; split_ifs <;> rfl

@[simp] theorem planeApproach_post_land_sway_timer (s : State) :
    (planeApproach s).post_land_sway_timer = s.post_land_sway_timer := by
  unfold planeApproach; dsimp only; split_ifs <;> rfl

@[simp] theorem planeApproach_parachute_current_ry_scale (s : State) :
    (planeApproach s).parachute_current_ry_scale = s.parachute_current_ry_scale := by
  unfold planeApproach; dsimp only; split_ifs <;> rfl

@[simp] theorem planeApproach_parachute_relative_y_offset_after_detach (s : State) :
    (planeApproach s).parachute_relative_y_offset_after_detach = s.parachute_relative_y_offset_after_detach := by
  unfold planeApproach; dsimp only; split_ifs <;> rfl

@[simp] theorem planeApproach_parachute_detaching_and_falling (s : State) :
    (planeApproach s).parachute_detaching_and_falling = s.parachute_detaching_and_falling := by
  unfold planeApproach; dsimp only; split_ifs <;> rfl

@[simp] theorem planeApproach_isRunning (s : State) :
    (planeApproach s).isRunning = s.isRunning := by
  unfold planeApproach; dsimp only; split_ifs <;> rfl

@[simp] theorem triggerJump_landed (s : State) :
    (triggerJump s).landed = s.landed := by
  unfold triggerJump; split_ifs <;> rfl

@[simp] theorem triggerJump_wind_strength (s : State) :
    (triggerJump s).wind_strength = s.wind_strength := by
  unfold triggerJump; split_ifs <;> rfl

@[simp] theorem triggerJump_post_land_sway_timer (s : State) :
    (triggerJump s).post_land_sway_timer = s.post_land_sway_timer := by
  unfold triggerJump; split_ifs <;> rfl

@[simp] theorem triggerJump_parachute_current_ry_scale (s : State) :
    (triggerJump s).parachute_current_ry_scale = s.parachute_current_ry_scale := by
  unfold triggerJump; split_ifs <;> rfl

@[simp] theorem triggerJump_parachute_detaching_and_falling (s : State) :
    (triggerJump s).parachute_detaching_and_falling = s.parachute_detaching_and_falling := by
  unfold triggerJump; split_ifs <;> rfl

@[simp] theorem triggerJump_isRunning (s : State) :
    (triggerJump s).isRunning = s.isRunning := by
  unfold triggerJump; split_ifs <;> rfl

@[simp] theorem triggerJump_plane_x (s : State) :
    (triggerJump s).plane_x = s.plane_x := by
  unfold triggerJump; split_ifs <;> rfl

@[simp] theorem triggerJump_plane_stopped (s : State) :
    (triggerJump s).plane_stopped = s.plane_stopped := by
  unfold triggerJump; split_ifs <;> rfl

@[simp] theorem stepFalling_jumped (inp : TickInput) (s : State) :
    (stepFalling inp s).jumped = s.jumped := by
  unfold stepFalling; dsimp only; split_ifs <;> rfl

@[simp] theorem stepFalling_wind_strength (inp : TickInput) (s : State) :
    (stepFalling inp s).wind_strength = s.wind_strength := by
  unfold stepFalling; dsimp only; split_ifs <;> rfl

@[simp] theorem stepFalling_parachute_current_ry_scale (inp : TickInput) (s : State) :
    (stepFalling inp s).parachute_current_ry_scale = s.parachute_current_ry_scale := by
  unfold stepFalling; dsimp only; split_ifs <;> rfl

@[simp] theorem stepFalling_parachute_relative_y_offset_after_detach (inp : TickInput) (s : State) :
    (stepFalling inp s).parachute_relative_y_offset_after_detach = s.parachute_relative_y_offset_after_detach := by
  unfold stepFalling; dsimp only; split_ifs <;> rfl

@[simp] theorem stepFalling_parachute_detaching_and_falling (inp : TickInput) (s : State) :
    (stepFalling inp s).parachute_detaching_and_falling = s.parachute_detaching_and_falling := by
  unfold stepFalling; dsimp only; split_ifs <;> rfl

@[simp] theorem stepFalling_isRunning (inp : TickInput) (s : State) :
    (stepFalling inp s).isRunning = s.isRunning := by
  unfold stepFalling; dsimp only; split_ifs <;> rfl

@[simp] theorem stepFalling_plane_x (inp : TickInput) (s : State) :
    (stepFalling inp s).plane_x = s.plane_x := by
  unfold stepFalling; dsimp only; split_ifs <;> rfl

@[simp] theorem stepFalling_plane_stopped (inp : TickInput) (s : State) :
    (stepFalling inp s).plane_stopped = s.plane_stopped := by
  unfold stepFalling; dsimp only; split_ifs <;> rfl

@[simp] theorem stepCollapsing_y_pos (s : State) :
    (stepCollapsing s).y_pos = s.y_pos := by
  unfold stepCollapsing; dsimp only; split_ifs <;> rfl

@[simp] theorem stepCollapsing_velocity (s : State) :
    (stepCollapsing s).velocity = s.velocity := by
  unfold stepCollapsing; dsimp only; split_ifs <;> rfl

@[simp] theorem stepCollapsing_landed (s : State) :
    (stepCollapsing s).landed = s.landed := by
  unfold stepCollapsing; dsimp only; split_ifs <;> rfl

@[simp] theorem stepCollapsing_jumped (s : State) :
    (stepCollapsing s).jumped = s.jumped := by
  unfold stepCollapsing; dsimp only; split_ifs <;> rfl

@[simp] theorem stepCollapsing_drift_x (s : State) :
    (stepCollapsing s).drift_x = s.drift_x := by
  unfold stepCollapsing; dsimp only; split_ifs <;> rfl

@[simp] theorem stepCollapsing_wind_strength (s : State) :
    (stepCollapsing s).wind_strength = s.wind_strength := by
  unfold stepCollapsing; dsimp only; split_ifs <;> rfl

@[simp] theorem stepCollapsing_plane_x (s : State) :
    (stepCollapsing s).plane_x = s.plane_x := by
  unfold stepCollapsing; dsimp only; split_ifs <;> rfl

@[simp] theorem stepCollapsing_plane_stopped (s : State) :
    (stepCollapsing s).plane_stopped = s.plane_stopped := by
  unfold stepCollapsing; dsimp only; split_ifs <;> rfl

@[simp] theorem stepRunning_y_pos (s : State) :
    (stepRunning s).y_pos = s.y_pos := by
  rfl

@[simp] theorem stepRunning_velocity (s : State) :
    (stepRunning s).velocity = s.velocity := by
  rfl

@[simp] theorem stepRunning_landed (s : State) :
    (stepRunning s).landed = s.landed := by
  rfl

@[simp] theorem stepRunning_jumped (s : State) :
    (stepRunning s).jumped = s.jumped := by
  rfl

@[simp] theorem stepRunning_wind_strength (s : State) :
    (stepRunning s).wind_strength = s.wind_strength := by
  rfl

@[simp] theorem stepRunning_post_land_sway_timer (s : State) :
    (stepRunning s).post_land_sway_timer = s.post_land_sway_timer := by
  rfl

@[simp] theorem stepRunning_parachute_current_ry_scale (s : State) :
    (stepRunning s).parachute_current_ry_scale = s.parachute_current_ry_scale := by
  rfl

@[simp] theorem stepRunning_parachute_relative_y_offset_after_detach (s : State) :
    (stepRunning s).parachute_relative_y_offset_after_detach = s.parachute_relative_y_offset_after_detach := by
  rfl

@[simp] theorem stepRunning_parachute_detaching_and_falling (s : State) :
    (stepRunning s).parachute_detaching_and_falling = s.parachute_detaching_and_falling := by
  rfl

@[simp] theorem stepRunning_isRunning (s : State) :
    (stepRunning s).isRunning = s.isRunning := by
  rfl

@[simp] theorem stepRunning_plane_x (s : State) :
    (stepRunning s).plane_x = s.plane_x := by
  rfl

@[simp] theorem stepRunning_plane_stopped (s : State) :
    (stepRunning s).plane_stopped = s.plane_stopped := by
  rfl

@[simp] theorem planeDepart_y_pos (s : State) :
    (planeDepart s).y_pos = s.y_pos := by
  unfold planeDepart; split_ifs <;> rfl

@[simp] theorem planeDepart_velocity (s : State) :
    (planeDepart s).velocity = s.velocity := by
  unfold planeDepart; split_ifs <;> rfl

@[simp] theorem planeDepart_landed (s : State) :
    (planeDepart s).landed = s.landed := by
  unfold planeDepart; split_ifs <;> rfl

@[simp] theorem planeDepart_jumped (s : State) :
    (planeDepart s).jumped = s.jumped := by
  unfold planeDepart; split_ifs <;> rfl

@[simp] theorem planeDepart_drift_x (s : State) :
    (planeDepart s).drift_x = s.drift_x := by
  unfold planeDepart; split_ifs <;> rfl

@[simp] theorem planeDepart_wind_strength (s : State) :
    (planeDepart s).wind_strength = s.wind_strength := by
  unfold planeDepart; split_ifs <;> rfl

@[simp] theorem planeDepart_post_land_sway_timer (s : State) :
    (planeDepart s).post_land_sway_timer = s.post_land_sway_timer := by
  unfold planeDepart; split_ifs <;> rfl

@[simp] theorem planeDepart_parachute_current_ry_scale (s : State) :
    (planeDepart s).parachute_current_ry_scale = s.parachute_current_ry_scale := by
  unfold planeDepart; split_ifs <;> rfl

@[simp] theorem planeDepart_parachute_relative_y_offset_after_detach (s : State) :
    (planeDepart s).parachute_relative_y_offset_after_detach = s.parachute_relative_y_offset_after_detach := by
  unfold planeDepart; split_ifs <;> rfl

@[simp] theorem planeDepart_parachute_detaching_and_falling (s : State) :
    (planeDepart s).parachute_detaching_and_falling = s.parachute_detaching_and_falling := by
  unfold planeDepart; split_ifs <;> rfl

@[simp] theorem planeDepart_isRunning (s : State) :
    (planeDepart s).isRunning = s.isRunning := by
  unfold planeDepart; split_ifs <;> rfl

@[simp] theorem planeDepart_plane_stopped (s : State) :
    (planeDepart s).plane_stopped = s.plane_stopped := by
  unfold planeDepart; split_ifs <;> rfl

/-! ### The tick in a falling state -/

theorem triggerJump_of_jumped (s : State) (hj : s.jumped = true) : triggerJump s = s := by
  unfold triggerJump
  rw [if_neg]
  simp [hj]

/-- Once the jump has happened, the blocks before line 403 only move the
scenery and the plane. -/
theorem beforeParachutist_of_jumped (m : Libm) (inp : TickInput) (s : State)
    (hj : s.jumped = true) :
    beforeParachutist m inp s = planeApproach (updateButterflies m inp (updateClouds s)) := by
  unfold beforeParachutist
  exact triggerJump_of_jumped _ (by simp [hj])

/-- In a falling state the tick changes velocity, altitude, drift and the
flags exactly as `stepFalling` does. -/
theorem update_of_falling (m : Libm) (inp : TickInput) (s : State)
    (hj : s.jumped = true) (hl : s.landed = false) :
    (update m inp s).velocity = (stepFalling inp s).velocity ∧
    (update m inp s).y_pos = (stepFalling inp s).y_pos ∧
    (update m inp s).landed = (stepFalling inp s).landed ∧
    (update m inp s).jumped = true ∧
    (update m inp s).drift_x = (stepFalling inp s).drift_x := by
  have hb := beforeParachutist_of_jumped m inp s hj
  simp only [update, stepParachutist, hb, planeDepart_velocity, planeDepart_y_pos,
    planeDepart_landed, planeDepart_jumped, planeDepart_drift_x, planeApproach_jumped,
    planeApproach_landed, updateButterflies_jumped, updateButterflies_landed,
    updateClouds_jumped, updateClouds_landed, hj, hl, if_true, Bool.not_false,
    stepFalling_jumped]
  simp only [stepFalling, current_feet_world_y, planeApproach_y_pos, planeApproach_velocity,
    planeApproach_drift_x, planeApproach_wind_strength, updateButterflies_y_pos,
    updateButterflies_velocity, updateButterflies_drift_x, updateButterflies_wind_strength,
    updateClouds_y_pos, updateClouds_velocity, updateClouds_drift_x,
    updateClouds_wind_strength]
  split_ifs <;> simp only [planeApproach_landed, updateButterflies_landed, updateClouds_landed,
    and_self]

/-- The fall branch keeps the velocity between the terminal velocity and 0. -/
theorem fallVelocity_bounds (v feet : ℚ) (hhi : v ≤ 0) :
    -0.002 ≤ fallVelocity v feet ∧ fallVelocity v feet ≤ 0 := by
  simp only [fallVelocity, gravity, LANDING_SLOWDOWN_DISTANCE, LANDING_DRAG_FACTOR,
    desired_landing_world_y, ground_level]
  split_ifs with h
  · obtain ⟨h1, h2⟩ := h
    have hdrag : 0 ≤ (0.0001 : ℚ) * (1.0 - (feet - (-1.0 - 0.35)) / 0.5) := by
      norm_num at h1 h2 ⊢
      linarith
    refine ⟨le_min ?_ (by norm_num), (min_le_right _ _).trans (by norm_num)⟩
    have : (-0.002 : ℚ) ≤ max (v + -0.00005) (-0.002) := le_max_right _ _
    linarith
  · refine ⟨le_max_right _ _, max_le ?_ (by norm_num)⟩
    norm_num at hhi ⊢
    linarith

/-! ### Velocity range -/

theorem triggerJump_velocity_bounds (s : State)
    (h : -0.002 ≤ s.velocity ∧ s.velocity ≤ 0) :
    -0.002 ≤ (triggerJump s).velocity ∧ (triggerJump s).velocity ≤ 0 := by
  unfold triggerJump
  split_ifs
  · norm_num
  · exact h

theorem stepFalling_velocity_bounds (inp : TickInput) (s : State)
    (h : -0.002 ≤ s.velocity ∧ s.velocity ≤ 0) :
    -0.002 ≤ (stepFalling inp s).velocity ∧ (stepFalling inp s).velocity ≤ 0 := by
  unfold stepFalling
  dsimp only
  split_ifs
  · exact fallVelocity_bounds _ _ h.2
  · norm_num

theorem update_velocity_bounds (m : Libm) (inp : TickInput) (s : State)
    (h : -0.002 ≤ s.velocity ∧ s.velocity ≤ 0) :
    -0.002 ≤ (update m inp s).velocity ∧ (update m inp s).velocity ≤ 0 := by
  have hb : -0.002 ≤ (beforeParachutist m inp s).velocity ∧
      (beforeParachutist m inp s).velocity ≤ 0 := by
    unfold beforeParachutist
    apply triggerJump_velocity_bounds
    simpa using h
  simp only [update, planeDepart_velocity, stepParachutist]
  split_ifs
  · exact stepFalling_velocity_bounds inp _ hb
  · simpa using hb
  · simpa using hb
  · exact hb

theorem keyboard_velocity_bounds (sd : Seed) (c : Char) (s : State)
    (h : -0.002 ≤ s.velocity ∧ s.velocity ≤ 0) :
    -0.002 ≤ (keyboard sd c s).velocity ∧ (keyboard sd c s).velocity ≤ 0 := by
  unfold keyboard
  split_ifs
  · simp only [resetAnimation]
    norm_num
  · exact h
  · exact h
  · exact h

/-! ### Runs and reachability -/

theorem reachableFrom_runTicks (m : Libm) (inputs : ℕ → TickInput) (s0 : State) (n : ℕ) :
    ReachableFrom m s0 (runTicks m inputs n s0) := by
  induction n with
  | zero => exact ReachableFrom.start
  | succ k ih => exact ReachableFrom.tick _ ih

theorem reachable_runTicks (m : Libm) (inputs : ℕ → TickInput) (sd : Seed) (n : ℕ) :
    Reachable m (runTicks m inputs n (initialState sd)) :=
  ⟨sd, reachableFrom_runTicks m inputs _ n⟩

/-! ### Flags -/

@[simp] theorem beforeParachutist_isRunning (m : Libm) (inp : TickInput) (s : State) :
    (beforeParachutist m inp s).isRunning = s.isRunning := by
  simp [beforeParachutist]

@[simp] theorem beforeParachutist_detaching (m : Libm) (inp : TickInput) (s : State) :
    (beforeParachutist m inp s).parachute_detaching_and_falling =
      s.parachute_detaching_and_falling := by
  simp [beforeParachutist]

@[simp] theorem beforeParachutist_scale (m : Libm) (inp : TickInput) (s : State) :
    (beforeParachutist m inp s).parachute_current_ry_scale = s.parachute_current_ry_scale := by
  simp [beforeParachutist]

@[simp] theorem beforeParachutist_timer (m : Libm) (inp : TickInput) (s : State) :
    (beforeParachutist m inp s).post_land_sway_timer = s.post_land_sway_timer := by
  simp [beforeParachutist]

@[simp] theorem beforeParachutist_wind_strength (m : Libm) (inp : TickInput) (s : State) :
    (beforeParachutist m inp s).wind_strength = s.wind_strength := by
  simp [beforeParachutist]

@[simp] theorem stepParachutist_jumped (inp : TickInput) (s : State) :
    (stepParachutist inp s).jumped = s.jumped := by
  unfold stepParachutist
  split_ifs <;> simp

theorem stepParachutist_landed_mono (inp : TickInput) (s : State) (h : s.landed = true) :
    (stepParachutist inp s).landed = true := by
  unfold stepParachutist
  split_ifs <;> simp_all

theorem stepCollapsing_detaching_mono (s : State)
    (h : s.parachute_detaching_and_falling = true) :
    (stepCollapsing s).parachute_detaching_and_falling = true := by
  unfold stepCollapsing
  dsimp only
  split_ifs <;> first | rfl | exact h

theorem stepCollapsing_isRunning_imp (s : State) (h : (stepCollapsing s).isRunning = true) :
    s.isRunning = true ∨ (stepCollapsing s).parachute_detaching_and_falling = true := by
  unfold stepCollapsing at h ⊢
  dsimp only at h ⊢
  split_ifs at h ⊢ <;> first | exact Or.inl h | exact Or.inr rfl

theorem stepParachutist_detaching_mono (inp : TickInput) (s : State)
    (h : s.parachute_detaching_and_falling = true) :
    (stepParachutist inp s).parachute_detaching_and_falling = true := by
  unfold stepParachutist
  split_ifs
  · simpa using h
  · exact stepCollapsing_detaching_mono s h
  · simpa using h
  · exact h

theorem stepParachutist_isRunning_mono (inp : TickInput) (s : State)
    (h : s.isRunning = true) : (stepParachutist inp s).isRunning = true := by
  unfold stepParachutist
  split_ifs <;> simp_all

theorem stepParachutist_flagInv (inp : TickInput) (s : State) (h : FlagInv s) :
    FlagInv (stepParachutist inp s) := by
  obtain ⟨h1, h2⟩ := h
  unfold stepParachutist
  split_ifs with hj hl hr
  · refine ⟨fun _ => by simpa using hj, fun hrun => ?_⟩
    have hrun' : s.isRunning = true := by simpa using hrun
    have := (h2 hrun').1
    simp [this] at hl
  · have hl' : s.landed = true := by simpa using hl
    refine ⟨fun _ => by simpa using hj, fun hrun => ⟨by simpa using hl', ?_⟩⟩
    rcases stepCollapsing_isRunning_imp s hrun with h | h
    · exact stepCollapsing_detaching_mono s (h2 h).2
    · exact h
  · exact ⟨fun _ => by simpa using hj, fun hrun => by simpa using h2 (by simpa using hrun)⟩
  · exact ⟨h1, h2⟩

theorem update_flagInv (m : Libm) (inp : TickInput) (s : State) (h : FlagInv s) :
    FlagInv (update m inp s) := by
  have hb : FlagInv (beforeParachutist m inp s) := by
    refine ⟨fun hl => ?_, fun hr => ?_⟩
    · rw [beforeParachutist_landed] at hl
      exact beforeParachutist_jumped_of_jumped m inp s (h.1 hl)
    · rw [beforeParachutist_isRunning] at hr
      rw [beforeParachutist_landed, beforeParachutist_detaching]
      exact h.2 hr
  have hp := stepParachutist_flagInv inp _ hb
  unfold update
  unfold FlagInv at hp ⊢
  simpa using hp

theorem keyboard_flagInv (sd : Seed) (c : Char) (s : State) (h : FlagInv s) :
    FlagInv (keyboard sd c s) := by
  unfold keyboard
  split_ifs
  · simp [FlagInv, resetAnimation]
  · exact h
  · exact h
  · exact h

theorem initialState_flagInv (sd : Seed) : FlagInv (initialState sd) := by
  simp [FlagInv, initialState]

/-! ### The drag stops the fall above the landing altitude -/

theorem human_feet_relative_y_eq : human_feet_relative_y = -0.1425 := by
  simp only [human_feet_relative_y]
  norm_num

theorem desired_landing_world_y_eq : desired_landing_world_y = -1.35 := by
  simp only [desired_landing_world_y, ground_level]
  norm_num

theorem feetDistance_eq (s : State) : feetDistance s = s.y_pos + 1.2075 := by
  simp only [feetDistance, current_feet_world_y, human_feet_relative_y_eq,
    desired_landing_world_y_eq]
  norm_num
  ring

/-- The velocity of the fall branch in terms of the distance `d` of the feet
above the landing altitude. -/
theorem fallVelocity_eq (v feet : ℚ) :
    fallVelocity v feet =
      if feet - desired_landing_world_y < 1 / 2 ∧ 0 < feet - desired_landing_world_y then
        min (max (v - 1 / 20000) (-1 / 500) +
          1 / 10000 * (1 - 2 * (feet - desired_landing_world_y))) 0
      else max (v - 1 / 20000) (-1 / 500) := by
  simp only [fallVelocity, gravity, LANDING_SLOWDOWN_DISTANCE, LANDING_DRAG_FACTOR]
  norm_num
  congr 1 <;> ring_nf

theorem hover_arith (v w d : ℚ) (hv : v ≤ 0) (hw : w ≤ 0) (hstep : v + 3 / 100000 ≤ w)
    (hphi : 3 / 100 ≤ d - v ^ 2 * (50000 / 3)) : 3 / 100 ≤ d + w - w ^ 2 * (50000 / 3) := by
  nlinarith [mul_nonneg (sub_nonneg.2 hstep) (neg_nonneg.2 (add_nonpos hv hw))]

/-- One tick of the fall branch keeps the hover condition: the feet stay 0.1
above the landing altitude or the braking margin stays 0.03. -/
theorem fallVelocity_hover (v feet : ℚ) (hhi : v ≤ 0)
    (h : 1 / 10 ≤ feet - desired_landing_world_y ∨
      3 / 100 ≤ feet - desired_landing_world_y - v ^ 2 * (50000 / 3)) :
    1 / 10 ≤ feet + fallVelocity v feet - desired_landing_world_y ∨
      3 / 100 ≤ feet + fallVelocity v feet - desired_landing_world_y -
        fallVelocity v feet ^ 2 * (50000 / 3) := by
  obtain ⟨hb1, hb2⟩ := fallVelocity_bounds v feet hhi
  have hb1 : -1 / 500 ≤ fallVelocity v feet := by norm_num at hb1 ⊢; exact hb1
  have hsq : fallVelocity v feet ^ 2 * (50000 / 3) ≤ 1 / 15 := by nlinarith
  generalize hd : feet - desired_landing_world_y = d at h
  have hd' : feet + fallVelocity v feet - desired_landing_world_y = d + fallVelocity v feet := by
    rw [← hd]; ring
  rw [hd']
  have hdpos : 3 / 100 ≤ d := by
    rcases h with h | h
    · linarith
    · nlinarith [sq_nonneg v]
  by_cases hfar : 1 / 10 ≤ d
  · right
    linarith
  · push_neg at hfar
    have hphi : 3 / 100 ≤ d - v ^ 2 * (50000 / 3) := by
      rcases h with h | h
      · linarith
      · exact h
    right
    have hcond : d < 1 / 2 ∧ 0 < d := ⟨by linarith, by linarith⟩
    have hfv := fallVelocity_eq v feet
    rw [hd, if_pos hcond] at hfv
    rcases le_total (max (v - 1 / 20000) (-1 / 500) + 1 / 10000 * (1 - 2 * d)) 0 with hc | hc
    · rw [min_eq_left hc] at hfv
      have hmax : v - 1 / 20000 ≤ max (v - 1 / 20000) (-1 / 500) := le_max_left _ _
      exact hover_arith v _ d hhi hb2 (by rw [hfv]; linarith) hphi
    · rw [min_eq_right hc] at hfv
      rw [hfv]
      nlinarith [sq_nonneg v]

theorem stepFalling_of_above (inp : TickInput) (s : State)
    (h : current_feet_world_y s > desired_landing_world_y) :
    (stepFalling inp s).velocity = fallVelocity s.velocity (current_feet_world_y s) ∧
    (stepFalling inp s).y_pos = s.y_pos + fallVelocity s.velocity (current_feet_world_y s) ∧
    (stepFalling inp s).landed = s.landed := by
  unfold stepFalling
  dsimp only
  rw [if_pos h]
  exact ⟨rfl, rfl, rfl⟩

theorem stepFalling_of_not_above (inp : TickInput) (s : State)
    (h : ¬ current_feet_world_y s > desired_landing_world_y) :
    (stepFalling inp s).velocity = 0.0 ∧
    (stepFalling inp s).y_pos = desired_landing_world_y - human_feet_relative_y ∧
    (stepFalling inp s).landed = true ∧
    (stepFalling inp s).post_land_sway_timer = POST_LAND_SWAY_DURATION := by
  unfold stepFalling
  dsimp only
  rw [if_neg h]
  exact ⟨rfl, rfl, rfl, rfl⟩

theorem hoverInv_feet_above (s : State) (h : HoverInv s) :
    current_feet_world_y s > desired_landing_world_y := by
  obtain ⟨_, _, _, _, hd⟩ := h
  unfold feetDistance at hd
  have hsq : 0 ≤ s.velocity ^ 2 / 0.00006 := by positivity
  rcases hd with hd | hd
  · norm_num at hd
    linarith
  · norm_num at hd hsq
    linarith

/-- The hover condition is kept by every tick. -/
theorem update_hoverInv (m : Libm) (inp : TickInput) (s : State) (h : HoverInv s) :
    HoverInv (update m inp s) := by
  have habove := hoverInv_feet_above s h
  obtain ⟨hj, hl, _, hhi, hd⟩ := h
  obtain ⟨hv, hy, hland, hjump, _⟩ := update_of_falling m inp s hj hl
  obtain ⟨hv', hy', hland'⟩ := stepFalling_of_above inp s habove
  rw [hv'] at hv
  rw [hy'] at hy
  rw [hland', hl] at hland
  obtain ⟨hb1, hb2⟩ := fallVelocity_bounds s.velocity (current_feet_world_y s) hhi
  have e : ∀ x : ℚ, x / (3 / 50000) = x * (50000 / 3) := fun x => by ring
  have key := fallVelocity_hover s.velocity (current_feet_world_y s) hhi
    (by unfold feetDistance at hd; norm_num at hd ⊢; rw [e] at hd; exact hd)
  refine ⟨hjump, hland, by rw [hv]; exact hb1, by rw [hv]; exact hb2, ?_⟩
  have hfd : feetDistance (update m inp s) =
      current_feet_world_y s + fallVelocity s.velocity (current_feet_world_y s) -
        desired_landing_world_y := by
    simp only [feetDistance, current_feet_world_y, hy]
    ring
  rw [hfd, hv]
  norm_num at key ⊢
  rw [e]
  exact key

theorem runTicks_hoverInv (m : Libm) (inputs : ℕ → TickInput) (s : State) (h : HoverInv s)
    (n : ℕ) : HoverInv (runTicks m inputs n s) := by
  induction n with
  | zero => exact h
  | succ k ih => exact update_hoverInv m _ _ ih

/-! ### The approach of the plane and the tick of the jump -/

/-- While the plane is short of the drop point, a tick only moves the plane
and the scenery. -/
theorem update_of_approaching (m : Libm) (inp : TickInput) (s : State)
    (hs : s.plane_stopped = false) (hj : s.jumped = false) (hx : s.plane_x + 0.005 < 0) :
    update m inp s =
      { updateButterflies m inp (updateClouds s) with plane_x := s.plane_x + 0.005 } := by
  have h1 : planeApproach (updateButterflies m inp (updateClouds s)) =
      { updateButterflies m inp (updateClouds s) with plane_x := s.plane_x + 0.005 } := by
    unfold planeApproach
    dsimp only
    rw [if_pos (by simp [hs]), if_neg]
    · rfl
    · rintro ⟨h, _⟩
      have h' : (0 : ℚ) ≤ s.plane_x + 0.005 := by
        norm_num at h ⊢
        exact h
      exact absurd hx (not_lt.2 h')
  unfold update beforeParachutist
  rw [h1]
  unfold triggerJump
  rw [if_neg (by simp [hs])]
  unfold stepParachutist
  rw [if_neg (by simp [hj])]
  unfold planeDepart
  rw [if_neg (by simp [hj])]

/-- The animation variables at line 403 in the tick in which the plane
reaches the drop point. -/
theorem beforeParachutist_of_arriving (m : Libm) (inp : TickInput) (s : State)
    (hs : s.plane_stopped = false) (hj : s.jumped = false) (hx : 0 ≤ s.plane_x + 0.005) :
    beforeParachutist m inp s =
      { updateButterflies m inp (updateClouds s) with
        plane_x := 0.0
        plane_stopped := true
        jumped := true
        y_pos := 1.45
        parachute_relative_y_offset_after_detach := 0.15
        velocity := -0.0005
        drift_x := 0.0 } := by
  have h1 : planeApproach (updateButterflies m inp (updateClouds s)) =
      { updateButterflies m inp (updateClouds s) with plane_x := 0.0, plane_stopped := true } := by
    unfold planeApproach
    dsimp only
    rw [if_pos (by simp [hs]), if_pos]
    refine ⟨?_, by simp [hj]⟩
    show s.plane_x + 0.005 ≥ 0.0
    norm_num at hx ⊢
    exact hx
  unfold beforeParachutist
  rw [h1]
  unfold triggerJump
  rw [if_pos (by simp [hj])]

theorem fallVelocity_far (v feet : ℚ) (hd : 1 / 2 ≤ feet - desired_landing_world_y) :
    fallVelocity v feet = max (v - 1 / 20000) (-1 / 500) := by
  rw [fallVelocity_eq, if_neg]
  rintro ⟨h, _⟩
  exact absurd h (not_lt.2 hd)

/-- The tick in which the plane reaches the drop point: the jump is triggered
and the first fall step is taken in the same call. -/
theorem update_of_arriving (m : Libm) (inp : TickInput) (s : State)
    (hs : s.plane_stopped = false) (hj : s.jumped = false) (hl : s.landed = false)
    (hx : 0 ≤ s.plane_x + 0.005) :
    (update m inp s).jumped = true ∧ (update m inp s).landed = false ∧
    (update m inp s).plane_stopped = true ∧
    (update m inp s).velocity = -0.00055 ∧ (update m inp s).y_pos = 1.44945 ∧
    (update m inp s).drift_x =
      max (-1.8) (min 1.8 ((inp.rnd * 2 - 1) * 0.0025 * s.wind_strength)) ∧
    (update m inp s).plane_x = 0.005 ∧
    (update m inp s).wind_strength = s.wind_strength := by
  have hb := beforeParachutist_of_arriving m inp s hs hj hx
  have habs : |(-0.0005 : ℚ)| = 0.0005 := by
    rw [abs_of_neg (by norm_num)]
    norm_num
  have hfv : fallVelocity (-0.0005) (1.45 + human_feet_relative_y) = -0.00055 := by
    rw [fallVelocity_far _ _ (by
      rw [human_feet_relative_y_eq, desired_landing_world_y_eq]; norm_num)]
    rw [max_eq_left (by norm_num)]
    norm_num
  have habove : (1.45 : ℚ) + human_feet_relative_y > desired_landing_world_y := by
    rw [human_feet_relative_y_eq, desired_landing_world_y_eq]
    norm_num
  unfold update
  rw [hb]
  unfold stepParachutist
  dsimp only
  rw [if_pos rfl]
  have hl' : (!(updateButterflies m inp (updateClouds s)).landed) = true := by
    simp [hl]
  rw [if_pos hl']
  unfold stepFalling current_feet_world_y
  dsimp only
  rw [if_pos habove, hfv, habs]
  unfold planeDepart
  dsimp only
  rw [if_pos ⟨rfl, rfl, by norm_num [WORLD_WIDTH]⟩]
  refine ⟨rfl, by simpa using hl, rfl, rfl, ?_, ?_, ?_, by simp⟩
  · show (1.45 : ℚ) + -0.00055 = 1.44945
    norm_num
  · show max (-WORLD_WIDTH / 2 + 0.2) (min (WORLD_WIDTH / 2 - 0.2)
      (0.0 + (inp.rnd * 2.0 - 1.0) * 0.005 *
        ((updateButterflies m inp (updateClouds s)).wind_strength * (0.0005 * 1000.0)))) = _
    rw [updateButterflies_wind_strength, updateClouds_wind_strength]
    norm_num [WORLD_WIDTH]
    congr 2
    ring
  · show (0.0 : ℚ) + 0.005 = 0.005
    norm_num

/-! ### The run from the initial state to the slowdown zone -/

/-- The first 499 ticks: the plane approaches, nothing else happens. -/
theorem approach_run (m : Libm) (inputs : ℕ → TickInput) (sd : Seed) (k : ℕ) (hk : k ≤ 499) :
    (runTicks m inputs k (initialState sd)).plane_x = -2.5 + 0.005 * (k : ℚ) ∧
    (runTicks m inputs k (initialState sd)).plane_stopped = false ∧
    (runTicks m inputs k (initialState sd)).jumped = false ∧
    (runTicks m inputs k (initialState sd)).landed = false ∧
    (runTicks m inputs k (initialState sd)).wind_strength = 1 := by
  induction k with
  | zero =>
    simp only [runTicks, initialState]
    norm_num
  | succ k ih =>
    obtain ⟨hx, hs, hj, hl, hw⟩ := ih (by omega)
    have hk' : ((k : ℚ) + 1) ≤ 499 := by exact_mod_cast hk
    have hlt : (runTicks m inputs k (initialState sd)).plane_x + 0.005 < 0 := by
      rw [hx]
      norm_num
      linarith
    simp only [runTicks]
    rw [update_of_approaching m _ _ hs hj hlt]
    refine ⟨?_, by simpa using hs, by simpa using hj, by simpa using hl, by simpa using hw⟩
    show (runTicks m inputs k (initialState sd)).plane_x + 0.005 = _
    rw [hx]
    push_cast
    ring

/-- The state after the 500th tick: the jump has been triggered and one fall
step taken. -/
theorem jump_tick_run (m : Libm) (inputs : ℕ → TickInput) (sd : Seed) :
    (runTicks m inputs 500 (initialState sd)).jumped = true ∧
    (runTicks m inputs 500 (initialState sd)).landed = false ∧
    (runTicks m inputs 500 (initialState sd)).velocity = -0.00055 ∧
    (runTicks m inputs 500 (initialState sd)).y_pos = 1.44945 ∧
    (runTicks m inputs 500 (initialState sd)).drift_x =
      max (-1.8) (min 1.8 (((inputs 499).rnd * 2 - 1) * 0.0025)) := by
  obtain ⟨hx, hs, hj, hl, hw⟩ := approach_run m inputs sd 499 le_rfl
  have h0 : 0 ≤ (runTicks m inputs 499 (initialState sd)).plane_x + 0.005 := by
    rw [hx]
    norm_num
  obtain ⟨a, b, _, c, d, e, _, _⟩ := update_of_arriving m (inputs 499) _ hs hj hl h0
  rw [hw, mul_one] at e
  exact ⟨a, b, c, d, e⟩

/-- A fall step at least the slowdown distance above the landing altitude:
gravity and the terminal-velocity clamp only. -/
theorem update_free_fall (m : Libm) (inp : TickInput) (s : State)
    (hj : s.jumped = true) (hl : s.landed = false) (hd : 1 / 2 ≤ feetDistance s) :
    (update m inp s).jumped = true ∧ (update m inp s).landed = false ∧
    (update m inp s).velocity = max (s.velocity - 1 / 20000) (-1 / 500) ∧
    (update m inp s).y_pos = s.y_pos + max (s.velocity - 1 / 20000) (-1 / 500) := by
  have habove : current_feet_world_y s > desired_landing_world_y := by
    unfold feetDistance at hd
    linarith
  obtain ⟨hv, hy, hland, hjump, _⟩ := update_of_falling m inp s hj hl
  obtain ⟨hv', hy', hland'⟩ := stepFalling_of_above inp s habove
  rw [fallVelocity_far _ _ hd] at hv' hy'
  exact ⟨hjump, by rw [hland, hland', hl], by rw [hv, hv'], by rw [hy, hy']⟩

/-- Ticks 500 to 529: the fall accelerates by gravity from -0.00055 to the
terminal velocity -0.002. -/
theorem accelerate_run (m : Libm) (inputs : ℕ → TickInput) (sd : Seed) (j : ℕ)
    (h1 : 1 ≤ j) (h30 : j ≤ 30) :
    (runTicks m inputs (499 + j) (initialState sd)).jumped = true ∧
    (runTicks m inputs (499 + j) (initialState sd)).landed = false ∧
    (runTicks m inputs (499 + j) (initialState sd)).velocity = -(1 / 2000) - (j : ℚ) / 20000 ∧
    (runTicks m inputs (499 + j) (initialState sd)).y_pos =
      29 / 20 - (j : ℚ) / 2000 - (j : ℚ) * ((j : ℚ) + 1) / 40000 := by
  induction j, h1 using Nat.le_induction with
  | base =>
    obtain ⟨a, b, c, d, _⟩ := jump_tick_run m inputs sd
    refine ⟨a, b, ?_, ?_⟩
    · rw [show 499 + 1 = 500 from rfl, c]
      norm_num
    · rw [show 499 + 1 = 500 from rfl, d]
      norm_num
  | succ j hj1 ih =>
    obtain ⟨a, b, c, d⟩ := ih (by omega)
    have hjq : ((j : ℚ) + 1) ≤ 30 := by exact_mod_cast h30
    have hj0 : (0 : ℚ) ≤ j := Nat.cast_nonneg j
    have hd : 1 / 2 ≤ feetDistance (runTicks m inputs (499 + j) (initialState sd)) := by
      rw [feetDistance_eq, d]
      norm_num
      nlinarith
    obtain ⟨a', b', c', d'⟩ := update_free_fall m (inputs (499 + j)) _ a b hd
    have hmax : max ((runTicks m inputs (499 + j) (initialState sd)).velocity - 1 / 20000)
        (-1 / 500) = -(1 / 2000) - ((j : ℚ) + 1) / 20000 := by
      rw [c, max_eq_left (by linarith)]
      ring
    rw [hmax] at c' d'
    rw [show 499 + (j + 1) = (499 + j) + 1 from rfl]
    simp only [runTicks]
    refine ⟨a', b', by rw [c']; push_cast; ring, ?_⟩
    rw [d', d]
    push_cast
    ring

/-- Ticks 530 to 1589: the fall at terminal velocity down to the slowdown
zone. -/
theorem terminal_run (m : Libm) (inputs : ℕ → TickInput) (sd : Seed) (k : ℕ)
    (hk : k ≤ 1060) :
    (runTicks m inputs (529 + k) (initialState sd)).jumped = true ∧
    (runTicks m inputs (529 + k) (initialState sd)).landed = false ∧
    (runTicks m inputs (529 + k) (initialState sd)).velocity = -1 / 500 ∧
    (runTicks m inputs (529 + k) (initialState sd)).y_pos = 5647 / 4000 - (k : ℚ) / 500 := by
  induction k with
  | zero =>
    obtain ⟨a, b, c, d⟩ := accelerate_run m inputs sd 30 (by norm_num) le_rfl
    refine ⟨a, b, ?_, ?_⟩
    · rw [show 529 + 0 = 499 + 30 from rfl, c]
      norm_num
    · rw [show 529 + 0 = 499 + 30 from rfl, d]
      norm_num
  | succ k ih =>
    obtain ⟨a, b, c, d⟩ := ih (by omega)
    have hkq : ((k : ℚ) + 1) ≤ 1060 := by exact_mod_cast hk
    have hd : 1 / 2 ≤ feetDistance (runTicks m inputs (529 + k) (initialState sd)) := by
      rw [feetDistance_eq, d]
      norm_num
      linarith
    obtain ⟨a', b', c', d'⟩ := update_free_fall m (inputs (529 + k)) _ a b hd
    have hmax : max ((runTicks m inputs (529 + k) (initialState sd)).velocity - 1 / 20000)
        (-1 / 500) = -1 / 500 := by
      rw [c, max_eq_right (by norm_num)]
    rw [hmax] at c' d'
    rw [show 529 + (k + 1) = (529 + k) + 1 from rfl]
    simp only [runTicks]
    refine ⟨a', b', c', ?_⟩
    rw [d', d]
    push_cast
    ring

/-- The tick that takes the parachutist into the slowdown zone raises the
velocity. -/
theorem slowdown_entry (m : Libm) (inputs : ℕ → TickInput) (sd : Seed) (inp : TickInput) :
    (runTicks m inputs 1589 (initialState sd)).jumped = true ∧
    (runTicks m inputs 1589 (initialState sd)).landed = false ∧
    (runTicks m inputs 1589 (initialState sd)).velocity = -0.002 ∧
    (runTicks m inputs 1589 (initialState sd)).y_pos = -0.70825 ∧
    (update m inp (runTicks m inputs 1589 (initialState sd))).velocity = -0.00199985 ∧
    (update m inp (runTicks m inputs 1589 (initialState sd))).landed = false := by
  obtain ⟨a, b, c, d⟩ := terminal_run m inputs sd 1060 le_rfl
  rw [show 529 + 1060 = 1589 from rfl] at a b c d
  have hy : (runTicks m inputs 1589 (initialState sd)).y_pos = -0.70825 := by
    rw [d]; norm_num
  have hfd : current_feet_world_y (runTicks m inputs 1589 (initialState sd)) -
      desired_landing_world_y = 1997 / 4000 := by
    have := feetDistance_eq (runTicks m inputs 1589 (initialState sd))
    unfold feetDistance at this
    rw [this, hy]
    norm_num
  have habove : current_feet_world_y (runTicks m inputs 1589 (initialState sd)) >
      desired_landing_world_y := by
    have : (0 : ℚ) < 1997 / 4000 := by norm_num
    linarith
  obtain ⟨hv, _, hland, _, _⟩ := update_of_falling m inp _ a b
  obtain ⟨hv', _, hland'⟩ := stepFalling_of_above inp _ habove
  refine ⟨a, b, by rw [c]; norm_num, hy, ?_, by rw [hland, hland', b]⟩
  rw [hv, hv', fallVelocity_eq, hfd, c, if_pos (by norm_num), max_eq_right (by norm_num),
    min_eq_left (by norm_num)]
  norm_num

/-! ### After the landing: sway, then detach -/

/-- In a landed state that is not running yet the tick changes the timer, the
canopy and the flags exactly as `stepCollapsing` does. -/
theorem update_of_collapsing (m : Libm) (inp : TickInput) (s : State)
    (hj : s.jumped = true) (hl : s.landed = true) (hr : s.isRunning = false) :
    (update m inp s).jumped = true ∧ (update m inp s).landed = true ∧
    (update m inp s).y_pos = s.y_pos ∧
    (update m inp s).post_land_sway_timer = (stepCollapsing s).post_land_sway_timer ∧
    (update m inp s).parachute_current_ry_scale = (stepCollapsing s).parachute_current_ry_scale ∧
    (update m inp s).parachute_relative_y_offset_after_detach =
      (stepCollapsing s).parachute_relative_y_offset_after_detach ∧
    (update m inp s).parachute_detaching_and_falling =
      (stepCollapsing s).parachute_detaching_and_falling ∧
    (update m inp s).isRunning = (stepCollapsing s).isRunning := by
  have hb := beforeParachutist_of_jumped m inp s hj
  simp only [update, stepParachutist, hb, planeDepart_jumped, planeDepart_landed,
    planeDepart_y_pos, planeDepart_post_land_sway_timer, planeDepart_parachute_current_ry_scale,
    planeDepart_parachute_relative_y_offset_after_detach,
    planeDepart_parachute_detaching_and_falling, planeDepart_isRunning,
    planeApproach_jumped, planeApproach_landed, planeApproach_isRunning,
    updateButterflies_jumped, updateButterflies_landed, updateButterflies_isRunning,
    updateClouds_jumped, updateClouds_landed, updateClouds_isRunning, hj, hl, hr, if_true,
    Bool.not_true, Bool.not_false, Bool.false_eq_true, if_false, stepCollapsing_jumped,
    stepCollapsing_landed, stepCollapsing_y_pos, planeApproach_y_pos, updateButterflies_y_pos,
    updateClouds_y_pos, true_and]
  simp only [stepCollapsing, planeApproach_y_pos, updateButterflies_y_pos, updateClouds_y_pos,
    planeApproach_post_land_sway_timer, updateButterflies_post_land_sway_timer,
    updateClouds_post_land_sway_timer, planeApproach_parachute_current_ry_scale,
    updateButterflies_parachute_current_ry_scale, updateClouds_parachute_current_ry_scale,
    planeApproach_parachute_relative_y_offset_after_detach,
    updateButterflies_parachute_relative_y_offset_after_detach,
    updateClouds_parachute_relative_y_offset_after_detach]
  split_ifs <;> simp only [planeApproach_parachute_detaching_and_falling,
    updateButterflies_parachute_detaching_and_falling,
    updateClouds_parachute_detaching_and_falling, planeApproach_isRunning,
    updateButterflies_isRunning, updateClouds_isRunning,
    planeApproach_parachute_relative_y_offset_after_detach,
    updateButterflies_parachute_relative_y_offset_after_detach,
    updateClouds_parachute_relative_y_offset_after_detach, and_self]

theorem stepCollapsing_of_swaying (s : State) (h : s.post_land_sway_timer > 0) :
    (stepCollapsing s).post_land_sway_timer = s.post_land_sway_timer - 16.0 / 1000.0 ∧
    (stepCollapsing s).parachute_detaching_and_falling = s.parachute_detaching_and_falling ∧
    (stepCollapsing s).isRunning = s.isRunning := by
  unfold stepCollapsing
  dsimp only
  rw [if_pos h]
  exact ⟨rfl, rfl, rfl⟩

theorem stepCollapsing_of_expired (s : State) (h : ¬ s.post_land_sway_timer > 0) :
    (stepCollapsing s).post_land_sway_timer = s.post_land_sway_timer ∧
    (stepCollapsing s).parachute_detaching_and_falling = true := by
  unfold stepCollapsing
  dsimp only
  rw [if_neg h]
  split_ifs <;> exact ⟨rfl, rfl⟩

/-- The sway phase after the landing: the timer counts down by 0.016 per
tick and the canopy stays attached. -/
theorem sway_run (m : Libm) (inputs : ℕ → TickInput) (s : State)
    (hj : s.jumped = true) (hl : s.landed = true) (hr : s.isRunning = false)
    (hd : s.parachute_detaching_and_falling = false) (ht : s.post_land_sway_timer = 2.0)
    (k : ℕ) (hk : k ≤ 125) :
    (runTicks m inputs k s).jumped = true ∧ (runTicks m inputs k s).landed = true ∧
    (runTicks m inputs k s).isRunning = false ∧
    (runTicks m inputs k s).parachute_detaching_and_falling = false ∧
    (runTicks m inputs k s).post_land_sway_timer = 2 - 2 / 125 * (k : ℚ) := by
  induction k with
  | zero =>
    refine ⟨hj, hl, hr, hd, ?_⟩
    simp only [runTicks]
    rw [ht]
    norm_num
  | succ k ih =>
    obtain ⟨a, b, c, d, e⟩ := ih (by omega)
    have hkq : ((k : ℚ) + 1) ≤ 125 := by exact_mod_cast hk
    have hpos : (runTicks m inputs k s).post_land_sway_timer > 0 := by
      rw [e]
      linarith
    obtain ⟨a', b', _, t', _, _, d', r'⟩ := update_of_collapsing m (inputs k) _ a b c
    obtain ⟨t'', d'', r''⟩ := stepCollapsing_of_swaying _ hpos
    simp only [runTicks]
    refine ⟨a', b', by rw [r', r'', c], by rw [d', d'', d], ?_⟩
    rw [t', t'', e]
    push_cast
    norm_num
    ring

/-! ### No reachable state has landed -/

theorem hoverInv_of_jump_tick (s : State) (hj : s.jumped = true) (hl : s.landed = false)
    (hv : s.velocity = -0.00055) (hy : s.y_pos = 1.44945) : HoverInv s := by
  refine ⟨hj, hl, by rw [hv]; norm_num, by rw [hv]; norm_num, Or.inl ?_⟩
  rw [feetDistance_eq, hy]
  norm_num

theorem update_airborneInv (m : Libm) (inp : TickInput) (s : State) (h : AirborneInv s) :
    AirborneInv (update m inp s) := by
  obtain ⟨hl, hns, hhov⟩ := h
  cases hj : s.jumped with
  | true =>
    have hh := update_hoverInv m inp s (hhov hj)
    exact ⟨hh.2.1, fun h => by rw [hh.1] at h; exact absurd h (by decide), fun _ => hh⟩
  | false =>
    have hs := hns hj
    rcases lt_or_le (s.plane_x + 0.005) 0 with hx | hx
    · rw [update_of_approaching m inp s hs hj hx]
      refine ⟨by simpa using hl, fun _ => by simpa using hs, fun h => ?_⟩
      have : s.jumped = true := by simpa using h
      rw [hj] at this
      exact absurd this (by decide)
    · obtain ⟨a, b, _, c, d, _, _, _⟩ := update_of_arriving m inp s hs hj hl hx
      exact ⟨b, fun h => by rw [a] at h; exact absurd h (by decide),
        fun _ => hoverInv_of_jump_tick _ a b c d⟩

theorem keyboard_airborneInv (sd : Seed) (c : Char) (s : State) (h : AirborneInv s) :
    AirborneInv (keyboard sd c s) := by
  unfold keyboard
  split_ifs
  · exact ⟨rfl, fun _ => rfl, fun h => Bool.noConfusion h⟩
  · exact h
  · exact h
  · exact h

theorem initialState_airborneInv (sd : Seed) : AirborneInv (initialState sd) :=
  ⟨rfl, fun _ => rfl, fun h => Bool.noConfusion h⟩

/-- From the initial state the program never gets to a landed state: the
parachutist ends up hovering above the landing altitude. -/
theorem reachable_not_landed (m : Libm) (s : State) (h : Reachable m s) :
    s.landed = false := by
  obtain ⟨sd, h⟩ := h
  have : AirborneInv s := by
    induction h with
    | start => exact initialState_airborneInv sd
    | tick inp _ ih => exact update_airborneInv m inp _ ih
    | key sd' c _ ih => exact keyboard_airborneInv sd' c _ ih
  exact this.1

/-! ### Canopy scale and drift -/

theorem stepCollapsing_scale_bounds (s : State) (h : 0.05 ≤ s.parachute_current_ry_scale) :
    0.05 ≤ (stepCollapsing s).parachute_current_ry_scale ∧
    (stepCollapsing s).parachute_current_ry_scale ≤ s.parachute_current_ry_scale := by
  simp only [stepCollapsing, PARACHUTE_COLLAPSE_SPEED]
  split_ifs <;>
    first
    | exact ⟨le_rfl, h⟩
    | (constructor <;> first | (norm_num at *; done) | (norm_num at *; linarith))

theorem update_scale_bounds (m : Libm) (inp : TickInput) (s : State)
    (h : 0.05 ≤ s.parachute_current_ry_scale) :
    0.05 ≤ (update m inp s).parachute_current_ry_scale ∧
    (update m inp s).parachute_current_ry_scale ≤ s.parachute_current_ry_scale := by
  have hb := beforeParachutist_scale m inp s
  simp only [update, planeDepart_parachute_current_ry_scale, stepParachutist]
  split_ifs
  · rw [stepFalling_parachute_current_ry_scale, hb]
    exact ⟨h, le_rfl⟩
  · have := stepCollapsing_scale_bounds (beforeParachutist m inp s) (by rw [hb]; exact h)
    rw [hb] at this
    exact this
  · rw [stepRunning_parachute_current_ry_scale, hb]
    exact ⟨h, le_rfl⟩
  · rw [hb]
    exact ⟨h, le_rfl⟩

theorem reachable_velocity_bounds (m : Libm) (s : State) (h : Reachable m s) :
    -0.002 ≤ s.velocity ∧ s.velocity ≤ 0 := by
  obtain ⟨sd, h⟩ := h
  induction h with
  | start =>
    simp only [initialState]
    norm_num
  | tick inp _ ih => exact update_velocity_bounds m inp _ ih
  | key sd' c _ ih => exact keyboard_velocity_bounds sd' c _ ih

theorem keyboard_scale_bounds (sd : Seed) (c : Char) (s : State)
    (h : 0.05 ≤ s.parachute_current_ry_scale ∧ s.parachute_current_ry_scale ≤ 1.0) :
    0.05 ≤ (keyboard sd c s).parachute_current_ry_scale ∧
    (keyboard sd c s).parachute_current_ry_scale ≤ 1.0 := by
  unfold keyboard
  split_ifs
  · simp only [resetAnimation]
    norm_num
  · exact h
  · exact h
  · exact h

theorem stepFalling_drift_bounds (inp : TickInput) (s : State) :
    -1.8 ≤ (stepFalling inp s).drift_x ∧ (stepFalling inp s).drift_x ≤ 1.8 := by
  have hlo : (-1.8 : ℚ) = -WORLD_WIDTH / 2 + 0.2 := by norm_num [WORLD_WIDTH]
  have hhi : (1.8 : ℚ) = WORLD_WIDTH / 2 - 0.2 := by norm_num [WORLD_WIDTH]
  have hle : -WORLD_WIDTH / 2 + 0.2 ≤ WORLD_WIDTH / 2 - 0.2 := by norm_num [WORLD_WIDTH]
  rw [hlo, hhi]
  unfold stepFalling
  dsimp only
  split_ifs <;> exact ⟨le_max_left _ _, max_le hle (min_le_left _ _)⟩

/-! ## The claims -/

/-- C1 (Scenario B), the behaviour of the code: from the state produced by
the jump (`jumped`, not `landed`, `y_pos = 1.45`, `velocity = -0.0005`),
whatever the wind and the inputs, `landed` is still false after every number
of ticks and the feet are still above the landing altitude. The drag of the
slowdown zone outweighs gravity and stops the fall short of the ground, so
the landing event of the scenario never occurs. -/
theorem scenarioB_never_lands (m : Libm) (inputs : ℕ → TickInput) (s : State)
    (hj : s.jumped = true) (hl : s.landed = false) (hy : s.y_pos = 1.45)
    (hv : s.velocity = -0.0005) (n : ℕ) :
    (runTicks m inputs n s).landed = false ∧
    current_feet_world_y (runTicks m inputs n s) > desired_landing_world_y := by
  have h0 : HoverInv s := by
    refine ⟨hj, hl, by rw [hv]; norm_num, by rw [hv]; norm_num, Or.inl ?_⟩
    rw [feetDistance_eq, hy]
    norm_num
  have hn := runTicks_hoverInv m inputs s h0 n
  exact ⟨hn.2.1, hoverInv_feet_above _ hn⟩

theorem scenarioB_never_lands_witness :
    scenarioB.jumped = true ∧ scenarioB.landed = false ∧ scenarioB.y_pos = 1.45 ∧
    scenarioB.velocity = -0.0005 ∧ scenarioB.wind_strength = 0.0 ∧
    (runTicks zeroLibm sampleInputs 5000 scenarioB).landed = false :=
  ⟨rfl, rfl, rfl, rfl, rfl,
    (scenarioB_never_lands zeroLibm sampleInputs scenarioB rfl rfl rfl rfl 5000).1⟩

/-- C2: in every state reachable from the initial state by ticks and key
presses, with any inputs, the vertical velocity lies between the terminal
velocity -0.002 and 0. -/
theorem velocity_range (m : Libm) (s : State) (h : Reachable m s) :
    -0.002 ≤ s.velocity ∧ s.velocity ≤ 0 :=
  reachable_velocity_bounds m s h

theorem velocity_range_witness :
    Reachable zeroLibm slowdownEntryState ∧
    -0.002 ≤ slowdownEntryState.velocity ∧ slowdownEntryState.velocity ≤ 0 :=
  ⟨reachable_runTicks zeroLibm sampleInputs zeroSeed 1589,
    velocity_range zeroLibm slowdownEntryState
      (reachable_runTicks zeroLibm sampleInputs zeroSeed 1589)⟩

/-- C3, as written, fails: the state left by the 1589th tick of the sample
run is a reachable falling state that does not land in the next tick, its
velocity is -0.002, and the next tick raises it to -0.00199985. -/
theorem velocity_rises_in_slowdown_zone :
    Reachable zeroLibm slowdownEntryState ∧
    slowdownEntryState.jumped = true ∧ slowdownEntryState.landed = false ∧
    (update zeroLibm sampleInput slowdownEntryState).landed = false ∧
    slowdownEntryState.velocity = -0.002 ∧
    (update zeroLibm sampleInput slowdownEntryState).velocity = -0.00199985 ∧
    ¬ (update zeroLibm sampleInput slowdownEntryState).velocity ≤
      slowdownEntryState.velocity := by
  obtain ⟨a, b, c, _, e, f⟩ := slowdown_entry zeroLibm sampleInputs zeroSeed sampleInput
  refine ⟨reachable_runTicks zeroLibm sampleInputs zeroSeed 1589, a, b, f, c, e, ?_⟩
  unfold slowdownEntryState
  rw [e, c]
  norm_num

/-- C3, amended: in every reachable falling state whose feet are at least the
slowdown distance 0.5 above the landing altitude, the tick does not raise the
velocity; and in every reachable falling state, the slowdown zone included,
the velocity stays at most 0. -/
theorem velocity_nonincreasing_above_slowdown (m : Libm) (inp : TickInput) (s : State)
    (h : Reachable m s) (hj : s.jumped = true) (hl : s.landed = false) :
    (LANDING_SLOWDOWN_DISTANCE ≤ feetDistance s → (update m inp s).velocity ≤ s.velocity) ∧
    (update m inp s).velocity ≤ 0 := by
  obtain ⟨hlo, hhi⟩ := reachable_velocity_bounds m s h
  refine ⟨fun hd => ?_, (update_velocity_bounds m inp s ⟨hlo, hhi⟩).2⟩
  have hd' : 1 / 2 ≤ feetDistance s := by
    unfold LANDING_SLOWDOWN_DISTANCE at hd
    norm_num at hd ⊢
    exact hd
  rw [(update_free_fall m inp s hj hl hd').2.2.1]
  refine max_le (by linarith) ?_
  norm_num at hlo ⊢
  exact hlo

theorem velocity_nonincreasing_above_slowdown_witness :
    Reachable zeroLibm jumpTickState ∧ jumpTickState.jumped = true ∧
    jumpTickState.landed = false ∧ LANDING_SLOWDOWN_DISTANCE ≤ feetDistance jumpTickState ∧
    (update zeroLibm sampleInput jumpTickState).velocity ≤ jumpTickState.velocity := by
  obtain ⟨a, b, _, d, _⟩ := jump_tick_run zeroLibm sampleInputs zeroSeed
  have hr := reachable_runTicks zeroLibm sampleInputs zeroSeed 500
  have hd : LANDING_SLOWDOWN_DISTANCE ≤ feetDistance jumpTickState := by
    unfold jumpTickState LANDING_SLOWDOWN_DISTANCE
    rw [feetDistance_eq, d]
    norm_num
  exact ⟨hr, a, b, hd,
    (velocity_nonincreasing_above_slowdown zeroLibm sampleInput jumpTickState hr a b).1 hd⟩

/-- C4: `landed` implies `jumped`, and `isRunning` implies `landed` and
`parachute_detaching_and_falling`, in every state the program gets to by
ticks and key presses from the initial state; the same holds from any start
state that satisfies the two implications. -/
theorem flag_invariants (m : Libm) (s0 s : State)
    (h0 : (∃ sd : Seed, s0 = initialState sd) ∨ FlagInv s0) (h : ReachableFrom m s0 s) :
    (s.landed = true → s.jumped = true) ∧
    (s.isRunning = true → s.landed = true ∧ s.parachute_detaching_and_falling = true) := by
  have h0' : FlagInv s0 := by
    rcases h0 with ⟨sd, rfl⟩ | h0
    · exact initialState_flagInv sd
    · exact h0
  have : FlagInv s := by
    induction h with
    | start => exact h0'
    | tick inp _ ih => exact update_flagInv m inp _ ih
    | key sd c _ ih => exact keyboard_flagInv sd c _ ih
  exact this

theorem flag_invariants_witness :
    FlagInv justLanded ∧
    ReachableFrom zeroLibm justLanded (update zeroLibm sampleInput justLanded) ∧
    ((update zeroLibm sampleInput justLanded).landed = true →
      (update zeroLibm sampleInput justLanded).jumped = true) ∧
    ((update zeroLibm sampleInput justLanded).isRunning = true →
      (update zeroLibm sampleInput justLanded).landed = true ∧
      (update zeroLibm sampleInput justLanded).parachute_detaching_and_falling = true) :=
  have hf : FlagInv justLanded := ⟨fun _ => rfl, fun h => Bool.noConfusion h⟩
  ⟨hf, ReachableFrom.tick sampleInput ReachableFrom.start,
    flag_invariants zeroLibm justLanded (update zeroLibm sampleInput justLanded) (Or.inr hf)
      (ReachableFrom.tick sampleInput ReachableFrom.start)⟩

/-- C5: the collapse scale lies in [0.05, 1.0] in every state the program
gets to from the initial state (and from any start state whose scale lies in
that range), and a tick taken while `landed` holds does not raise it. -/
theorem collapse_scale_range (m : Libm) (inp : TickInput) (s0 s : State)
    (h0 : (∃ sd : Seed, s0 = initialState sd) ∨
      (0.05 ≤ s0.parachute_current_ry_scale ∧ s0.parachute_current_ry_scale ≤ 1.0))
    (h : ReachableFrom m s0 s) :
    (0.05 ≤ s.parachute_current_ry_scale ∧ s.parachute_current_ry_scale ≤ 1.0) ∧
    (s.landed = true →
      (update m inp s).parachute_current_ry_scale ≤ s.parachute_current_ry_scale) := by
  have h0' : 0.05 ≤ s0.parachute_current_ry_scale ∧ s0.parachute_current_ry_scale ≤ 1.0 := by
    rcases h0 with ⟨sd, rfl⟩ | h0
    · simp only [initialState]
      norm_num
    · exact h0
  have hs : 0.05 ≤ s.parachute_current_ry_scale ∧ s.parachute_current_ry_scale ≤ 1.0 := by
    induction h with
    | start => exact h0'
    | tick i _ ih =>
      obtain ⟨a, b⟩ := update_scale_bounds m i _ ih.1
      exact ⟨a, b.trans ih.2⟩
    | key sd c _ ih => exact keyboard_scale_bounds sd c _ ih
  exact ⟨hs, fun _ => (update_scale_bounds m inp s hs.1).2⟩

theorem collapse_scale_range_witness :
    (0.05 ≤ justLanded.parachute_current_ry_scale ∧
      justLanded.parachute_current_ry_scale ≤ 1.0) ∧
    justLanded.landed = true ∧
    (update zeroLibm sampleInput (update zeroLibm sampleInput justLanded)).parachute_current_ry_scale
      ≤ (update zeroLibm sampleInput justLanded).parachute_current_ry_scale := by
  have hb : 0.05 ≤ justLanded.parachute_current_ry_scale ∧
      justLanded.parachute_current_ry_scale ≤ 1.0 := by
    show (0.05 : ℚ) ≤ 1.0 ∧ (1.0 : ℚ) ≤ 1.0
    norm_num
  have hl : (update zeroLibm sampleInput justLanded).landed = true :=
    (update_of_collapsing zeroLibm sampleInput justLanded rfl rfl rfl).2.1
  exact ⟨hb, rfl,
    (collapse_scale_range zeroLibm sampleInput justLanded _ (Or.inr hb)
      (ReachableFrom.tick sampleInput ReachableFrom.start)).2 hl⟩

/-- C6, as written, fails: in the sample run the jump is triggered in the
500th tick, and the state that tick leaves has velocity -0.00055, not
-0.0005, and drift 0.0025, not 0.0. -/
theorem jump_tick_is_not_scenarioA :
    (runTicks zeroLibm sampleInputs 499 (initialState zeroSeed)).jumped = false ∧
    jumpTickState.jumped = true ∧
    jumpTickState.velocity = -0.00055 ∧ jumpTickState.velocity ≠ -0.0005 ∧
    jumpTickState.drift_x = 0.0025 ∧ jumpTickState.drift_x ≠ 0.0 := by
  obtain ⟨_, _, hj, _, _⟩ := approach_run zeroLibm sampleInputs zeroSeed 499 le_rfl
  obtain ⟨a, _, c, _, e⟩ := jump_tick_run zeroLibm sampleInputs zeroSeed
  have e' : jumpTickState.drift_x = 0.0025 := by
    unfold jumpTickState
    rw [e]
    show max (-1.8 : ℚ) (min 1.8 (((1 : ℚ) * 2 - 1) * 0.0025)) = 0.0025
    rw [min_eq_right (by norm_num), max_eq_right (by norm_num)]
    norm_num
  refine ⟨hj, a, c, ?_, e', ?_⟩
  · unfold jumpTickState
    rw [c]
    norm_num
  · rw [e']
    norm_num

/-- C6, amended: starting from the initial state, with no key pressed, the
jump is triggered in the 500th tick, and the state that tick leaves has
`jumped`, not `landed`, velocity -0.00055 (the -0.0005 of the jump and one
step of gravity), altitude 1.44945, and as drift the plane's 0.0 plus the
wind drift `(2 * rnd - 1) * 0.0025` of that tick, clamped to [-1.8, 1.8]. -/
theorem jump_tick_state (m : Libm) (inputs : ℕ → TickInput) (sd : Seed) :
    (runTicks m inputs 499 (initialState sd)).jumped = false ∧
    (runTicks m inputs 500 (initialState sd)).jumped = true ∧
    (runTicks m inputs 500 (initialState sd)).landed = false ∧
    (runTicks m inputs 500 (initialState sd)).velocity = -0.00055 ∧
    (runTicks m inputs 500 (initialState sd)).y_pos = 1.44945 ∧
    (runTicks m inputs 500 (initialState sd)).drift_x =
      max (-1.8) (min 1.8 (0.0 + ((inputs 499).rnd * 2 - 1) * 0.0025)) := by
  obtain ⟨_, _, hj, _, _⟩ := approach_run m inputs sd 499 le_rfl
  obtain ⟨a, b, c, d, e⟩ := jump_tick_run m inputs sd
  refine ⟨hj, a, b, c, d, ?_⟩
  rw [e]
  norm_num

/-- C7, as written, fails: 125 ticks after the landing the sway timer has
run out (it is at most 0), but the canopy is not detaching yet. -/
theorem not_detaching_after_125_ticks :
    justLanded.landed = true ∧ justLanded.isRunning = false ∧
    justLanded.parachute_detaching_and_falling = false ∧
    justLanded.post_land_sway_timer = 2.0 ∧
    (runTicks zeroLibm sampleInputs 125 justLanded).post_land_sway_timer ≤ 0 ∧
    (runTicks zeroLibm sampleInputs 125 justLanded).parachute_detaching_and_falling = false := by
  obtain ⟨_, _, _, d, e⟩ :=
    sway_run zeroLibm sampleInputs justLanded rfl rfl rfl rfl rfl 125 le_rfl
  refine ⟨rfl, rfl, rfl, rfl, ?_, d⟩
  rw [e]
  norm_num

/-- C7, amended: from any just-landed state (`jumped`, `landed`, not running,
canopy attached, sway timer 2.0), after exactly 125 ticks the sway timer is
at most 0 and the canopy is still attached; the 126th tick, the first to find
the timer expired, sets `parachute_detaching_and_falling`. -/
theorem sway_then_detach (m : Libm) (inputs : ℕ → TickInput) (s : State)
    (hj : s.jumped = true) (hl : s.landed = true) (hr : s.isRunning = false)
    (hd : s.parachute_detaching_and_falling = false) (ht : s.post_land_sway_timer = 2.0) :
    (runTicks m inputs 125 s).post_land_sway_timer ≤ 0 ∧
    (runTicks m inputs 125 s).parachute_detaching_and_falling = false ∧
    (runTicks m inputs 126 s).post_land_sway_timer ≤ 0 ∧
    (runTicks m inputs 126 s).parachute_detaching_and_falling = true := by
  obtain ⟨a, b, c, d, e⟩ := sway_run m inputs s hj hl hr hd ht 125 le_rfl
  have e0 : (runTicks m inputs 125 s).post_land_sway_timer = 0 := by
    rw [e]
    norm_num
  obtain ⟨_, _, _, t', _, _, d', _⟩ := update_of_collapsing m (inputs 125) _ a b c
  obtain ⟨t'', d''⟩ := stepCollapsing_of_expired (runTicks m inputs 125 s)
    (by rw [e0]; exact lt_irrefl 0)
  refine ⟨le_of_eq e0, d, ?_, ?_⟩
  · show (update m (inputs 125) (runTicks m inputs 125 s)).post_land_sway_timer ≤ 0
    rw [t', t'', e0]
  · show (update m (inputs 125) (runTicks m inputs 125 s)).parachute_detaching_and_falling = true
    rw [d', d'']

theorem sway_then_detach_witness :
    justLanded.jumped = true ∧ justLanded.landed = true ∧ justLanded.isRunning = false ∧
    justLanded.parachute_detaching_and_falling = false ∧
    justLanded.post_land_sway_timer = 2.0 ∧
    (runTicks zeroLibm sampleInputs 125 justLanded).post_land_sway_timer ≤ 0 ∧
    (runTicks zeroLibm sampleInputs 125 justLanded).parachute_detaching_and_falling = false ∧
    (runTicks zeroLibm sampleInputs 126 justLanded).post_land_sway_timer ≤ 0 ∧
    (runTicks zeroLibm sampleInputs 126 justLanded).parachute_detaching_and_falling = true :=
  ⟨rfl, rfl, rfl, rfl, rfl,
    sway_then_detach zeroLibm sampleInputs justLanded rfl rfl rfl rfl rfl⟩

/-- C8: a tick never clears `jumped`, `landed`,
`parachute_detaching_and_falling` or `isRunning`, whatever its inputs; a key
other than `r` and `R` (the wind keys among them) leaves the four flags as
they are; `resetAnimation` clears `jumped`. -/
theorem no_backward_transitions (m : Libm) (inp : TickInput) (sd : Seed) (c : Char)
    (s : State) (hc : c ≠ 'r' ∧ c ≠ 'R') :
    ((s.jumped = true → (update m inp s).jumped = true) ∧
      (s.landed = true → (update m inp s).landed = true) ∧
      (s.parachute_detaching_and_falling = true →
        (update m inp s).parachute_detaching_and_falling = true) ∧
      (s.isRunning = true → (update m inp s).isRunning = true)) ∧
    ((keyboard sd c s).jumped = s.jumped ∧ (keyboard sd c s).landed = s.landed ∧
      (keyboard sd c s).parachute_detaching_and_falling = s.parachute_detaching_and_falling ∧
      (keyboard sd c s).isRunning = s.isRunning) ∧
    (resetAnimation sd s).jumped = false := by
  refine ⟨⟨fun h => ?_, fun h => ?_, fun h => ?_, fun h => ?_⟩, ?_, rfl⟩
  · simp only [update, planeDepart_jumped, stepParachutist_jumped]
    exact beforeParachutist_jumped_of_jumped m inp s h
  · simp only [update, planeDepart_landed]
    exact stepParachutist_landed_mono inp _ (by rw [beforeParachutist_landed]; exact h)
  · simp only [update, planeDepart_parachute_detaching_and_falling]
    exact stepParachutist_detaching_mono inp _ (by rw [beforeParachutist_detaching]; exact h)
  · simp only [update, planeDepart_isRunning]
    exact stepParachutist_isRunning_mono inp _ (by rw [beforeParachutist_isRunning]; exact h)
  · unfold keyboard
    rw [if_neg (by rintro (h | h); exacts [hc.1 h, hc.2 h])]
    split_ifs <;> exact ⟨rfl, rfl, rfl, rfl⟩

theorem no_backward_transitions_witness :
    ('+' ≠ 'r' ∧ '+' ≠ 'R') ∧ justLanded.jumped = true ∧ justLanded.landed = true ∧
    (update zeroLibm sampleInput justLanded).jumped = true ∧
    (update zeroLibm sampleInput justLanded).landed = true ∧
    (keyboard zeroSeed '+' justLanded).jumped = true ∧
    (keyboard zeroSeed '+' justLanded).landed = true :=
  have hc : '+' ≠ 'r' ∧ '+' ≠ 'R' := by decide
  have h := no_backward_transitions zeroLibm sampleInput zeroSeed '+' justLanded hc
  ⟨hc, rfl, rfl, h.1.1 rfl, h.1.2.1 rfl, h.2.1.1, h.2.1.2.1⟩

/-- C9: when the falling branch runs (the parachutist has jumped by line 403
and had not landed), the tick leaves the drift within [-1.8, 1.8], whatever
the wind strength and the random draw. -/
theorem airborne_drift_clamped (m : Libm) (inp : TickInput) (s : State)
    (hj : (beforeParachutist m inp s).jumped = true) (hl : s.landed = false) :
    -1.8 ≤ (update m inp s).drift_x ∧ (update m inp s).drift_x ≤ 1.8 := by
  have hl' : (beforeParachutist m inp s).landed = false := by
    rw [beforeParachutist_landed]
    exact hl
  simp only [update, planeDepart_drift_x, stepParachutist, hj, hl', if_true, Bool.not_false]
  exact stepFalling_drift_bounds inp _

theorem airborne_drift_clamped_witness :
    (beforeParachutist zeroLibm sampleInput scenarioB).jumped = true ∧
    scenarioB.landed = false ∧
    -1.8 ≤ (update zeroLibm sampleInput scenarioB).drift_x ∧
    (update zeroLibm sampleInput scenarioB).drift_x ≤ 1.8 :=
  ⟨beforeParachutist_jumped_of_jumped zeroLibm sampleInput scenarioB rfl, rfl,
    airborne_drift_clamped zeroLibm sampleInput scenarioB
      (beforeParachutist_jumped_of_jumped zeroLibm sampleInput scenarioB rfl) rfl⟩

/-- C10 (Scenario D): from any state, `resetAnimation` (and so the keys `r`
and `R`) leaves altitude 2.0, `jumped` and `landed` false, wind strength 1.0
and exactly 5 butterflies. -/
theorem reset_scenario (sd : Seed) (s : State) :
    (resetAnimation sd s).y_pos = 2.0 ∧ (resetAnimation sd s).jumped = false ∧
    (resetAnimation sd s).landed = false ∧ (resetAnimation sd s).wind_strength = 1.0 ∧
    (resetAnimation sd s).butterflies.length = 5 ∧
    keyboard sd 'r' s = resetAnimation sd s ∧ keyboard sd 'R' s = resetAnimation sd s := by
  refine ⟨rfl, rfl, rfl, rfl, ?_, ?_, ?_⟩
  · simp [resetAnimation, initButterflies]
  · unfold keyboard
    rw [if_pos (Or.inl rfl)]
  · unfold keyboard
    rw [if_pos (Or.inr rfl)]

/-! ### The scenery and the wind across a tick -/

@[simp] theorem planeApproach_butterflies (s : State) :
    (planeApproach s).butterflies = s.butterflies := by
  unfold planeApproach; dsimp only; split_ifs <;> rfl

@[simp] theorem planeApproach_cloud1_x (s : State) :
    (planeApproach s).cloud1_x = s.cloud1_x := by
  unfold planeApproach; dsimp only; split_ifs <;> rfl

@[simp] theorem planeApproach_cloud2_x (s : State) :
    (planeApproach s).cloud2_x = s.cloud2_x := by
  unfold planeApproach; dsimp only; split_ifs <;> rfl

@[simp] theorem planeApproach_cloud3_x (s : State) :
    (planeApproach s).cloud3_x = s.cloud3_x := by
  unfold planeApproach; dsimp only; split_ifs <;> rfl

@[simp] theorem triggerJump_butterflies (s : State) :
    (triggerJump s).butterflies = s.butterflies := by
  unfold triggerJump; split_ifs <;> rfl

@[simp] theorem triggerJump_cloud1_x (s : State) :
    (triggerJump s).cloud1_x = s.cloud1_x := by
  unfold triggerJump; split_ifs <;> rfl

@[simp] theorem triggerJump_cloud2_x (s : State) :
    (triggerJump s).cloud2_x = s.cloud2_x := by
  unfold triggerJump; split_ifs <;> rfl

@[simp] theorem triggerJump_cloud3_x (s : State) :
    (triggerJump s).cloud3_x = s.cloud3_x := by
  unfold triggerJump; split_ifs <;> rfl

@[simp] theorem stepFalling_butterflies (inp : TickInput) (s : State) :
    (stepFalling inp s).butterflies = s.butterflies := by
  unfold stepFalling; dsimp only; split_ifs <;> rfl

@[simp] theorem stepFalling_cloud1_x (inp : TickInput) (s : State) :
    (stepFalling inp s).cloud1_x = s.cloud1_x := by
  unfold stepFalling; dsimp only; split_ifs <;> rfl

@[simp] theorem stepFalling_cloud2_x (inp : TickInput) (s : State) :
    (stepFalling inp s).cloud2_x = s.cloud2_x := by
  unfold stepFalling; dsimp only; split_ifs <;> rfl

@[simp] theorem stepFalling_cloud3_x (inp : TickInput) (s : State) :
    (stepFalling inp s).cloud3_x = s.cloud3_x := by
  unfold stepFalling; dsimp only; split_ifs <;> rfl

@[simp] theorem stepCollapsing_butterflies (s : State) :
    (stepCollapsing s).butterflies = s.butterflies := by
  unfold stepCollapsing; dsimp only; split_ifs <;> rfl

@[simp] theorem stepCollapsing_cloud1_x (s : State) :
    (stepCollapsing s).cloud1_x = s.cloud1_x := by
  unfold stepCollapsing; dsimp only; split_ifs <;> rfl

@[simp] theorem stepCollapsing_cloud2_x (s : State) :
    (stepCollapsing s).cloud2_x = s.cloud2_x := by
  unfold stepCollapsing; dsimp only; split_ifs <;> rfl

@[simp] theorem stepCollapsing_cloud3_x (s : State) :
    (stepCollapsing s).cloud3_x = s.cloud3_x := by
  unfold stepCollapsing; dsimp only; split_ifs <;> rfl

@[simp] theorem stepRunning_butterflies (s : State) :
    (stepRunning s).butterflies = s.butterflies := by
  rfl

@[simp] theorem stepRunning_cloud1_x (s : State) :
    (stepRunning s).cloud1_x = s.cloud1_x := by
  rfl

@[simp] theorem stepRunning_cloud2_x (s : State) :
    (stepRunning s).cloud2_x = s.cloud2_x := by
  rfl

@[simp] theorem stepRunning_cloud3_x (s : State) :
    (stepRunning s).cloud3_x = s.cloud3_x := by
  rfl

@[simp] theorem planeDepart_butterflies (s : State) :
    (planeDepart s).butterflies = s.butterflies := by
  unfold planeDepart; split_ifs <;> rfl

@[simp] theorem planeDepart_cloud1_x (s : State) :
    (planeDepart s).cloud1_x = s.cloud1_x := by
  unfold planeDepart; split_ifs <;> rfl

@[simp] theorem planeDepart_cloud2_x (s : State) :
    (planeDepart s).cloud2_x = s.cloud2_x := by
  unfold planeDepart; split_ifs <;> rfl

@[simp] theorem planeDepart_cloud3_x (s : State) :
    (planeDepart s).cloud3_x = s.cloud3_x := by
  unfold planeDepart; split_ifs <;> rfl

@[simp] theorem stepParachutist_butterflies (inp : TickInput) (s : State) :
    (stepParachutist inp s).butterflies = s.butterflies := by
  unfold stepParachutist
  split_ifs <;> simp

@[simp] theorem stepParachutist_cloud1_x (inp : TickInput) (s : State) :
    (stepParachutist inp s).cloud1_x = s.cloud1_x := by
  unfold stepParachutist
  split_ifs <;> simp

@[simp] theorem stepParachutist_cloud2_x (inp : TickInput) (s : State) :
    (stepParachutist inp s).cloud2_x = s.cloud2_x := by
  unfold stepParachutist
  split_ifs <;> simp

@[simp] theorem stepParachutist_cloud3_x (inp : TickInput) (s : State) :
    (stepParachutist inp s).cloud3_x = s.cloud3_x := by
  unfold stepParachutist
  split_ifs <;> simp

/-- The parachutist and the plane leave the scenery alone: the butterflies
and clouds a tick leaves are those of its first two blocks. -/
theorem update_scenery (m : Libm) (inp : TickInput) (s : State) :
    (update m inp s).butterflies =
      s.butterflies.map (updateButterfly m ((inp.elapsed : ℚ) / 1000.0)) ∧
    (update m inp s).cloud1_x = (updateClouds s).cloud1_x ∧
    (update m inp s).cloud2_x = (updateClouds s).cloud2_x ∧
    (update m inp s).cloud3_x = (updateClouds s).cloud3_x := by
  simp only [update, beforeParachutist, planeDepart_butterflies, planeDepart_cloud1_x,
    planeDepart_cloud2_x, planeDepart_cloud3_x, stepParachutist_butterflies,
    stepParachutist_cloud1_x, stepParachutist_cloud2_x, stepParachutist_cloud3_x,
    triggerJump_butterflies, triggerJump_cloud1_x, triggerJump_cloud2_x, triggerJump_cloud3_x,
    planeApproach_butterflies, planeApproach_cloud1_x, planeApproach_cloud2_x,
    planeApproach_cloud3_x]
  exact ⟨rfl, rfl, rfl, rfl⟩

@[simp] theorem stepParachutist_wind_strength (inp : TickInput) (s : State) :
    (stepParachutist inp s).wind_strength = s.wind_strength := by
  unfold stepParachutist
  split_ifs <;> simp

@[simp] theorem stepParachutist_plane_x (inp : TickInput) (s : State) :
    (stepParachutist inp s).plane_x = s.plane_x := by
  unfold stepParachutist
  split_ifs <;> simp

@[simp] theorem stepParachutist_plane_stopped (inp : TickInput) (s : State) :
    (stepParachutist inp s).plane_stopped = s.plane_stopped := by
  unfold stepParachutist
  split_ifs <;> simp

/-- A tick does not touch the wind strength. -/
theorem update_wind_strength (m : Libm) (inp : TickInput) (s : State) :
    (update m inp s).wind_strength = s.wind_strength := by
  simp [update]

/-! ### The keys -/

theorem keyboard_plus (sd : Seed) (s : State) :
    keyboard sd '+' s =
      { s with wind_strength :=
          if s.wind_strength + 0.5 > 5.0 then 5.0 else s.wind_strength + 0.5 } := by
  unfold keyboard
  rw [if_neg (by decide), if_pos rfl]

theorem keyboard_minus (sd : Seed) (s : State) :
    keyboard sd '-' s =
      { s with wind_strength :=
          if s.wind_strength - 0.5 < 0.0 then 0.0 else s.wind_strength - 0.5 } := by
  unfold keyboard
  rw [if_neg (by decide), if_neg (by decide), if_pos rfl]

theorem keyboard_other (sd : Seed) (c : Char) (s : State)
    (hc : c ≠ 'r' ∧ c ≠ 'R' ∧ c ≠ '+' ∧ c ≠ '-') : keyboard sd c s = s := by
  obtain ⟨h1, h2, h3, h4⟩ := hc
  unfold keyboard
  rw [if_neg (by rintro (h | h); exacts [h1 h, h2 h]), if_neg h3, if_neg h4]

theorem keyboard_wind_strength (sd : Seed) (c : Char) (s : State) :
    (keyboard sd c s).wind_strength = 1.0 ∨
    (keyboard sd c s).wind_strength =
      (if s.wind_strength + 0.5 > 5.0 then 5.0 else s.wind_strength + 0.5) ∨
    (keyboard sd c s).wind_strength =
      (if s.wind_strength - 0.5 < 0.0 then 0.0 else s.wind_strength - 0.5) ∨
    (keyboard sd c s).wind_strength = s.wind_strength := by
  by_cases hr : c = 'r' ∨ c = 'R'
  · left
    unfold keyboard
    rw [if_pos hr]
    rfl
  · by_cases hp : c = '+'
    · subst hp
      right; left
      rw [keyboard_plus]
    · by_cases hm : c = '-'
      · subst hm
        right; right; left
        rw [keyboard_minus]
      · right; right; right
        rw [keyboard_other sd c s ⟨fun h => hr (Or.inl h), fun h => hr (Or.inr h), hp, hm⟩]

theorem windOnGrid_range (w : ℚ) (h : WindOnGrid w) : 0 ≤ w ∧ w ≤ 5 := by
  obtain ⟨k, hk, rfl⟩ := h
  have h1 : (0 : ℚ) ≤ k := Nat.cast_nonneg k
  have h2 : (k : ℚ) ≤ 10 := by exact_mod_cast hk
  constructor <;> linarith

theorem windOnGrid_plus (w : ℚ) (h : WindOnGrid w) :
    WindOnGrid (if w + 0.5 > 5.0 then 5.0 else w + 0.5) := by
  obtain ⟨k, hk, rfl⟩ := h
  split_ifs with hgt
  · exact ⟨10, le_rfl, by norm_num⟩
  · refine ⟨k + 1, ?_, by push_cast; norm_num; ring⟩
    have : ((k : ℚ) + 1) ≤ 10 := by
      norm_num at hgt
      linarith
    exact_mod_cast this

theorem windOnGrid_minus (w : ℚ) (h : WindOnGrid w) :
    WindOnGrid (if w - 0.5 < 0.0 then 0.0 else w - 0.5) := by
  obtain ⟨k, hk, rfl⟩ := h
  split_ifs with hlt
  · exact ⟨0, by norm_num, by norm_num⟩
  · have h1 : (1 : ℚ) ≤ k := by
      norm_num at hlt
      linarith
    have h1' : 1 ≤ k := by exact_mod_cast h1
    refine ⟨k - 1, by omega, ?_⟩
    rw [Nat.cast_sub h1']
    push_cast
    norm_num
    ring

/-- The wind strength of a reachable state is a multiple of 0.5 between 0.0
and 5.0. -/
theorem reachable_wind_on_grid (m : Libm) (s : State) (h : Reachable m s) :
    WindOnGrid s.wind_strength := by
  obtain ⟨sd, h⟩ := h
  induction h with
  | start => exact ⟨2, by norm_num, by simp only [initialState]; norm_num⟩
  | tick inp _ ih =>
    rw [update_wind_strength]
    exact ih
  | key sd' c _ ih =>
    rcases keyboard_wind_strength sd' c _ with h | h | h | h <;> rw [h]
    · exact ⟨2, by norm_num, by norm_num⟩
    · exact windOnGrid_plus _ ih
    · exact windOnGrid_minus _ ih
    · exact ih

/-- Pressing `+` and then `-` at a wind strength on the grid below the cap. -/
theorem plus_minus_wind_on_grid (sd1 sd2 : Seed) (s : State)
    (hg : WindOnGrid s.wind_strength) (h5 : s.wind_strength < 5) :
    (keyboard sd2 '-' (keyboard sd1 '+' s)).wind_strength = s.wind_strength := by
  obtain ⟨k, hk, hw⟩ := hg
  have hk9 : k ≤ 9 := by
    rcases Nat.lt_or_ge k 10 with h | h
    · omega
    · have : k = 10 := by omega
      rw [hw, this] at h5
      norm_num at h5
  have hq : (k : ℚ) ≤ 9 := by exact_mod_cast hk9
  have h0 : (0 : ℚ) ≤ k := Nat.cast_nonneg k
  rw [keyboard_minus, keyboard_plus]
  dsimp only
  have hin : (if s.wind_strength + 0.5 > 5.0 then (5.0 : ℚ) else s.wind_strength + 0.5) =
      s.wind_strength + 0.5 := if_neg (by rw [hw]; norm_num; linarith)
  rw [hin, if_neg (by rw [hw]; norm_num; linarith)]
  ring

/-- A run of events from a reachable state ends in a reachable state. -/
theorem reachableFrom_runEvents (m : Libm) (s0 : State) (es : List Event) :
    ∀ s : State, ReachableFrom m s0 s → ReachableFrom m s0 (runEvents m es s) := by
  induction es with
  | nil => intro s h; exact h
  | cons e es ih =>
    intro s h
    cases e with
    | tick inp => exact ih _ (ReachableFrom.tick inp h)
    | key sd c => exact ih _ (ReachableFrom.key sd c h)

/-- The wind strength after `k` presses of `+` that stay below the cap. -/
theorem plus_presses_wind (m : Libm) (sd : Seed) (k : ℕ) :
    ∀ s : State, s.wind_strength + (k : ℚ) / 2 ≤ 5 →
      (runEvents m (List.replicate k (Event.key sd '+')) s).wind_strength =
        s.wind_strength + (k : ℚ) / 2 := by
  induction k with
  | zero =>
    intro s _
    show s.wind_strength = s.wind_strength + ((0 : ℕ) : ℚ) / 2
    norm_num
  | succ k ih =>
    intro s h
    have hk : (0 : ℚ) ≤ k := Nat.cast_nonneg k
    push_cast at h
    have hw : (keyboard sd '+' s).wind_strength = s.wind_strength + 0.5 := by
      rw [keyboard_plus]
      exact if_neg (by norm_num; linarith)
    show (runEvents m (List.replicate k (Event.key sd '+')) (keyboard sd '+' s)).wind_strength = _
    rw [ih _ (by rw [hw]; norm_num; linarith), hw]
    push_cast
    norm_num
    ring

theorem nearCapState_wind : nearCapState.wind_strength = 4.5 := by
  unfold nearCapState
  rw [plus_presses_wind zeroLibm zeroSeed 7 _ (by
    show (1.0 : ℚ) + ((7 : ℕ) : ℚ) / 2 ≤ 5
    norm_num)]
  show (1.0 : ℚ) + ((7 : ℕ) : ℚ) / 2 = 4.5
  norm_num

theorem nearCapState_reachable : Reachable zeroLibm nearCapState :=
  ⟨zeroSeed, reachableFrom_runEvents zeroLibm _ _ _ ReachableFrom.start⟩

/-- C11, as written, fails: after the first tick of the sample run the first
cloud is at -2.199 and `resetAnimation` leaves it there, while it starts at
-2.2; and the detached-parachute offset is 0.15 after a reset, while it
starts at 0. -/
theorem reset_is_not_initial :
    (resetAnimation zeroSeed firstTickState).cloud1_x = -2.199 ∧
    (initialState zeroSeed).cloud1_x = -2.2 ∧
    (resetAnimation zeroSeed firstTickState).cloud1_x ≠ (initialState zeroSeed).cloud1_x ∧
    (resetAnimation zeroSeed firstTickState).parachute_relative_y_offset_after_detach = 0.15 ∧
    (initialState zeroSeed).parachute_relative_y_offset_after_detach = 0 ∧
    (resetAnimation zeroSeed firstTickState).parachute_relative_y_offset_after_detach ≠
      (initialState zeroSeed).parachute_relative_y_offset_after_detach := by
  have hc : (resetAnimation zeroSeed firstTickState).cloud1_x = -2.199 := by
    show firstTickState.cloud1_x = -2.199
    unfold firstTickState
    rw [(update_scenery zeroLibm sampleInput (initialState zeroSeed)).2.1]
    simp only [updateClouds, initialState, BASE_CLOUD1_SPEED, WORLD_WIDTH]
    norm_num
  refine ⟨hc, rfl, ?_, rfl, rfl, ?_⟩
  · rw [hc]
    show (-2.199 : ℚ) ≠ -2.2
    norm_num
  · show (0.15 : ℚ) ≠ 0
    norm_num

/-- C11, amended: `resetAnimation` leaves the three cloud positions as they
are and builds 5 new butterflies; every other animation variable gets the
value it has at program start, except the detached-parachute offset, which
gets the 0.15 of the jump and not the 0 of the start. -/
theorem reset_state (sd sd0 : Seed) (s : State) :
    resetAnimation sd s =
      { initialState sd0 with
        cloud1_x := s.cloud1_x
        cloud2_x := s.cloud2_x
        cloud3_x := s.cloud3_x
        parachute_relative_y_offset_after_detach := 0.15
        butterflies := initButterflies sd 5 } :=
  rfl

/-- C12: in every state reachable from the initial state by ticks and key
presses (`+`, `-`, `r`, `R` and any other key), the wind strength lies
between 0.0 and 5.0. -/
theorem wind_range (m : Libm) (s : State) (h : Reachable m s) :
    0.0 ≤ s.wind_strength ∧ s.wind_strength ≤ 5.0 := by
  have := windOnGrid_range _ (reachable_wind_on_grid m s h)
  norm_num
  exact this

theorem wind_range_witness :
    Reachable zeroLibm (keyboard zeroSeed '+' firstTickState) ∧
    0.0 ≤ (keyboard zeroSeed '+' firstTickState).wind_strength ∧
    (keyboard zeroSeed '+' firstTickState).wind_strength ≤ 5.0 :=
  have hr : Reachable zeroLibm (keyboard zeroSeed '+' firstTickState) :=
    ⟨zeroSeed, ReachableFrom.key zeroSeed '+' (ReachableFrom.tick sampleInput ReachableFrom.start)⟩
  ⟨hr, wind_range zeroLibm (keyboard zeroSeed '+' firstTickState) hr⟩

/-- C13: the key `+` sets the wind strength to `min (w + 0.5) 5.0`, the key
`-` to `max (w - 0.5) 0.0`, so by exactly 0.5 up or down when the result is
not clamped, and both leave every other variable as it is; a key other than
`r`, `R`, `+` and `-` leaves the whole state as it is. -/
theorem wind_key_semantics (sd : Seed) (c : Char) (s : State)
    (hc : c ≠ 'r' ∧ c ≠ 'R' ∧ c ≠ '+' ∧ c ≠ '-') :
    keyboard sd '+' s = { s with wind_strength := min (s.wind_strength + 0.5) 5.0 } ∧
    keyboard sd '-' s = { s with wind_strength := max (s.wind_strength - 0.5) 0.0 } ∧
    (s.wind_strength + 0.5 ≤ 5.0 →
      (keyboard sd '+' s).wind_strength = s.wind_strength + 0.5) ∧
    (0.0 ≤ s.wind_strength - 0.5 →
      (keyboard sd '-' s).wind_strength = s.wind_strength - 0.5) ∧
    keyboard sd c s = s := by
  have hp : (if s.wind_strength + 0.5 > 5.0 then (5.0 : ℚ) else s.wind_strength + 0.5) =
      min (s.wind_strength + 0.5) 5.0 := by
    split_ifs with h
    · exact (min_eq_right (le_of_lt h)).symm
    · exact (min_eq_left (not_lt.1 h)).symm
  have hm : (if s.wind_strength - 0.5 < 0.0 then (0.0 : ℚ) else s.wind_strength - 0.5) =
      max (s.wind_strength - 0.5) 0.0 := by
    split_ifs with h
    · exact (max_eq_right (le_of_lt h)).symm
    · exact (max_eq_left (not_lt.1 h)).symm
  refine ⟨?_, ?_, fun h => ?_, fun h => ?_, keyboard_other sd c s hc⟩
  · rw [keyboard_plus, hp]
  · rw [keyboard_minus, hm]
  · rw [keyboard_plus]
    exact if_neg (not_lt.2 h)
  · rw [keyboard_minus]
    exact if_neg (not_lt.2 h)

theorem wind_key_semantics_witness :
    ('x' ≠ 'r' ∧ 'x' ≠ 'R' ∧ 'x' ≠ '+' ∧ 'x' ≠ '-') ∧
    keyboard zeroSeed 'x' (initialState zeroSeed) = initialState zeroSeed ∧
    (keyboard zeroSeed '+' (initialState zeroSeed)).wind_strength = 1.0 + 0.5 ∧
    (keyboard zeroSeed '-' (initialState zeroSeed)).wind_strength = 1.0 - 0.5 :=
  have hc : 'x' ≠ 'r' ∧ 'x' ≠ 'R' ∧ 'x' ≠ '+' ∧ 'x' ≠ '-' := by decide
  have h := wind_key_semantics zeroSeed 'x' (initialState zeroSeed) hc
  ⟨hc, h.2.2.2.2,
    h.2.2.1 (show (1.0 : ℚ) + 0.5 ≤ 5.0 by norm_num),
    h.2.2.2.1 (show (0.0 : ℚ) ≤ 1.0 - 0.5 by norm_num)⟩

/-- C14: in every state the program can reach whose wind strength lies
strictly inside (0, 5), pressing `+` and then `-` gives back exactly that
wind strength. Only the upper bound is used: at 0.0 the round trip holds as
well. -/
theorem wind_round_trip (m : Libm) (sd1 sd2 : Seed) (s : State) (h : Reachable m s)
    (h5 : s.wind_strength < 5) :
    (keyboard sd2 '-' (keyboard sd1 '+' s)).wind_strength = s.wind_strength :=
  plus_minus_wind_on_grid sd1 sd2 s (reachable_wind_on_grid m s h) h5

theorem wind_round_trip_witness :
    Reachable zeroLibm nearCapState ∧ nearCapState.wind_strength = 4.5 ∧
    0 < nearCapState.wind_strength ∧ nearCapState.wind_strength < 5 ∧
    (keyboard zeroSeed '-' (keyboard zeroSeed '+' nearCapState)).wind_strength =
      nearCapState.wind_strength := by
  have hw := nearCapState_wind
  have h0 : 0 < nearCapState.wind_strength := by rw [hw]; norm_num
  have h5 : nearCapState.wind_strength < 5 := by rw [hw]; norm_num
  exact ⟨nearCapState_reachable, hw, h0, h5,
    wind_round_trip zeroLibm zeroSeed zeroSeed nearCapState nearCapState_reachable h5⟩

/-! ### Butterflies -/

/-- The two wrap tests of lines 379-380 (and 381-382) leave a coordinate
within the world bounds plus the margin. -/
theorem wrap_bounds (x : ℚ) :
    -2.1 ≤ (if (if x > 2.1 then (-2.1 : ℚ) else x) < -2.1 then (2.1 : ℚ)
      else (if x > 2.1 then (-2.1 : ℚ) else x)) ∧
    (if (if x > 2.1 then (-2.1 : ℚ) else x) < -2.1 then (2.1 : ℚ)
      else (if x > 2.1 then (-2.1 : ℚ) else x)) ≤ 2.1 := by
  split_ifs with h1 h2 h3 <;> constructor <;> norm_num at * <;> linarith

/-- A coordinate within the world bounds plus the margin passes both wrap
tests unchanged. -/
theorem wrap_id (x : ℚ) (h0 : -2.1 ≤ x) (h1 : x ≤ 2.1) :
    (if (if x > 2.1 then (-2.1 : ℚ) else x) < -2.1 then (2.1 : ℚ)
      else (if x > 2.1 then (-2.1 : ℚ) else x)) = x := by
  have hin : (if x > 2.1 then (-2.1 : ℚ) else x) = x := if_neg (not_lt.2 h1)
  rw [hin]
  exact if_neg (not_lt.2 h0)

theorem updateButterfly_bounds (m : Libm) (t : ℚ) (b : Butterfly) :
    (-2.1 ≤ (updateButterfly m t b).x ∧ (updateButterfly m t b).x ≤ 2.1) ∧
    (-2.1 ≤ (updateButterfly m t b).y ∧ (updateButterfly m t b).y ≤ 2.1) := by
  have hw : WORLD_WIDTH / 2 + 0.1 = 2.1 := by norm_num [WORLD_WIDTH]
  have hw' : -WORLD_WIDTH / 2 - 0.1 = -2.1 := by norm_num [WORLD_WIDTH]
  have hh : WORLD_HEIGHT / 2 + 0.1 = 2.1 := by norm_num [WORLD_HEIGHT]
  have hh' : -WORLD_HEIGHT / 2 - 0.1 = -2.1 := by norm_num [WORLD_HEIGHT]
  simp only [updateButterfly, hw, hw', hh, hh']
  exact ⟨wrap_bounds _, wrap_bounds _⟩

/-- The spawn point and the amplitudes `initButterflies` gives a butterfly,
when every quotient `rand() / RAND_MAX` lies between 0 and 1. -/
theorem newButterfly_inSpawnRange (sd : Seed) (i : ℕ)
    (h : ∀ n, 0 ≤ sd.draw n ∧ sd.draw n ≤ 1) : InSpawnRange (newButterfly sd i) := by
  obtain ⟨a0, a1⟩ := h (10 * i)
  obtain ⟨b0, b1⟩ := h (10 * i + 1)
  obtain ⟨c0, c1⟩ := h (10 * i + 5)
  obtain ⟨d0, d1⟩ := h (10 * i + 6)
  simp only [InSpawnRange, newButterfly, WORLD_WIDTH, ground_level]
  norm_num
  refine ⟨⟨?_, ?_⟩, ⟨?_, ?_⟩, ⟨?_, ?_⟩, ⟨?_, ?_⟩⟩ <;> linarith

/-- With `sin` and `cos` between -1 and 1, a butterfly spawned in the ranges
of `initButterflies` stays within its amplitudes of the spawn point, so that
neither wrap test fires. -/
theorem updateButterfly_near_spawn (m : Libm) (t : ℚ) (b : Butterfly)
    (hm : SinCosBounded m) (hb : InSpawnRange b) :
    (updateButterfly m t b).x = b.initial_spawn_x +
      b.flight_amplitude_x * m.sin (t * b.flight_speed_mult_x + b.flight_phase_offset) ∧
    (updateButterfly m t b).y = b.initial_spawn_y +
      b.flight_amplitude_y * m.cos (t * b.flight_speed_mult_y + b.flight_phase_offset * 1.5) ∧
    |(updateButterfly m t b).x - b.initial_spawn_x| ≤ b.flight_amplitude_x ∧
    |(updateButterfly m t b).y - b.initial_spawn_y| ≤ b.flight_amplitude_y := by
  obtain ⟨⟨hx0, hx1⟩, ⟨hy0, hy1⟩, ⟨hax0, hax1⟩, ⟨hay0, hay1⟩⟩ := hb
  obtain ⟨⟨hs0, hs1⟩, _⟩ := hm (t * b.flight_speed_mult_x + b.flight_phase_offset)
  obtain ⟨_, ⟨hc0, hc1⟩⟩ := hm (t * b.flight_speed_mult_y + b.flight_phase_offset * 1.5)
  have hax : 0 ≤ b.flight_amplitude_x := by norm_num at hax0; linarith
  have hay : 0 ≤ b.flight_amplitude_y := by norm_num at hay0; linarith
  have hsx : |b.flight_amplitude_x *
      m.sin (t * b.flight_speed_mult_x + b.flight_phase_offset)| ≤ b.flight_amplitude_x := by
    rw [abs_le]
    constructor <;> nlinarith
  have hcy : |b.flight_amplitude_y *
      m.cos (t * b.flight_speed_mult_y + b.flight_phase_offset * 1.5)| ≤
      b.flight_amplitude_y := by
    rw [abs_le]
    constructor <;> nlinarith
  obtain ⟨hsx0, hsx1⟩ := abs_le.1 hsx
  obtain ⟨hcy0, hcy1⟩ := abs_le.1 hcy
  have hw : WORLD_WIDTH / 2 + 0.1 = 2.1 := by norm_num [WORLD_WIDTH]
  have hw' : -WORLD_WIDTH / 2 - 0.1 = -2.1 := by norm_num [WORLD_WIDTH]
  have hh : WORLD_HEIGHT / 2 + 0.1 = 2.1 := by norm_num [WORLD_HEIGHT]
  have hh' : -WORLD_HEIGHT / 2 - 0.1 = -2.1 := by norm_num [WORLD_HEIGHT]
  have ex : (updateButterfly m t b).x = b.initial_spawn_x +
      b.flight_amplitude_x * m.sin (t * b.flight_speed_mult_x + b.flight_phase_offset) := by
    simp only [updateButterfly, hw, hw']
    exact wrap_id _ (by norm_num at *; linarith) (by norm_num at *; linarith)
  have ey : (updateButterfly m t b).y = b.initial_spawn_y +
      b.flight_amplitude_y * m.cos (t * b.flight_speed_mult_y + b.flight_phase_offset * 1.5) := by
    simp only [updateButterfly, hh, hh']
    exact wrap_id _ (by norm_num at *; linarith) (by norm_num at *; linarith)
  refine ⟨ex, ey, ?_, ?_⟩
  · rw [ex, add_sub_cancel_left]
    exact hsx
  · rw [ey, add_sub_cancel_left]
    exact hcy

theorem extremeLibm_bounded : SinCosBounded extremeLibm := by
  intro x
  show ((-1 : ℚ) ≤ 1 ∧ (1 : ℚ) ≤ 1) ∧ ((-1 : ℚ) ≤ -1 ∧ (-1 : ℚ) ≤ 1)
  norm_num

theorem zeroSeed_newButterfly_inSpawnRange (i : ℕ) : InSpawnRange (newButterfly zeroSeed i) :=
  newButterfly_inSpawnRange zeroSeed i (fun _ => by
    show (0 : ℚ) ≤ 0 ∧ (0 : ℚ) ≤ 1
    norm_num)

theorem firstTickState_butterfly_mem :
    updateButterfly zeroLibm ((sampleInput.elapsed : ℚ) / 1000.0) (newButterfly zeroSeed 0) ∈
      firstTickState.butterflies := by
  unfold firstTickState
  rw [(update_scenery zeroLibm sampleInput (initialState zeroSeed)).1]
  apply List.mem_map_of_mem
  show newButterfly zeroSeed 0 ∈ (List.range 5).map (newButterfly zeroSeed)
  exact List.mem_map_of_mem _ (List.mem_range.2 (by norm_num))

/-- C15: every butterfly a tick leaves has both coordinates within the world
bounds plus the 0.1 margin, [-2.1, 2.1], whatever the butterfly, the clock
value and the values of `sin` and `cos`. -/
theorem butterfly_bounds (m : Libm) (inp : TickInput) (s : State) (b : Butterfly)
    (hb : b ∈ (update m inp s).butterflies) :
    (-2.1 ≤ b.x ∧ b.x ≤ 2.1) ∧ (-2.1 ≤ b.y ∧ b.y ≤ 2.1) := by
  rw [(update_scenery m inp s).1] at hb
  obtain ⟨b0, _, rfl⟩ := List.mem_map.1 hb
  exact updateButterfly_bounds m _ b0

theorem butterfly_bounds_witness :
    updateButterfly zeroLibm ((sampleInput.elapsed : ℚ) / 1000.0) (newButterfly zeroSeed 0) ∈
      (update zeroLibm sampleInput (initialState zeroSeed)).butterflies ∧
    (-2.1 ≤ (updateButterfly zeroLibm ((sampleInput.elapsed : ℚ) / 1000.0)
        (newButterfly zeroSeed 0)).x ∧
      (updateButterfly zeroLibm ((sampleInput.elapsed : ℚ) / 1000.0)
        (newButterfly zeroSeed 0)).x ≤ 2.1) ∧
    (-2.1 ≤ (updateButterfly zeroLibm ((sampleInput.elapsed : ℚ) / 1000.0)
        (newButterfly zeroSeed 0)).y ∧
      (updateButterfly zeroLibm ((sampleInput.elapsed : ℚ) / 1000.0)
        (newButterfly zeroSeed 0)).y ≤ 2.1) :=
  ⟨firstTickState_butterfly_mem,
    butterfly_bounds zeroLibm sampleInput (initialState zeroSeed) _
      firstTickState_butterfly_mem⟩

/-! ### Landing, ground snap, plane departure, hover -/

theorem update_of_falling_timer (m : Libm) (inp : TickInput) (s : State)
    (hj : s.jumped = true) (hl : s.landed = false) :
    (update m inp s).post_land_sway_timer = (stepFalling inp s).post_land_sway_timer := by
  have hb := beforeParachutist_of_jumped m inp s hj
  simp only [update, stepParachutist, hb, planeDepart_post_land_sway_timer,
    planeApproach_jumped, planeApproach_landed, updateButterflies_jumped,
    updateButterflies_landed, updateClouds_jumped, updateClouds_landed, hj, hl, if_true,
    Bool.not_false]
  simp only [stepFalling, current_feet_world_y, planeApproach_y_pos, updateButterflies_y_pos,
    updateClouds_y_pos]
  split_ifs <;> simp only [planeApproach_post_land_sway_timer,
    updateButterflies_post_land_sway_timer, updateClouds_post_land_sway_timer]

theorem planeApproach_of_stopped (s : State) (h : s.plane_stopped = true) :
    planeApproach s = s := by
  unfold planeApproach
  rw [if_neg (by simp [h])]

/-- The plane once the jump has happened: only the last block of the tick
moves it, and only while it is not further right than `WORLD_WIDTH / 2 + 0.5`. -/
theorem update_plane_of_jumped (m : Libm) (inp : TickInput) (s : State)
    (hj : s.jumped = true) (hs : s.plane_stopped = true) :
    (update m inp s).jumped = true ∧ (update m inp s).plane_stopped = true ∧
    (update m inp s).plane_x =
      if s.plane_x ≤ WORLD_WIDTH / 2 + 0.5 then s.plane_x + 0.005 else s.plane_x := by
  have hb := beforeParachutist_of_jumped m inp s hj
  have hp : planeApproach (updateButterflies m inp (updateClouds s)) =
      updateButterflies m inp (updateClouds s) :=
    planeApproach_of_stopped _ (by simp [hs])
  rw [hp] at hb
  have h1 : (stepParachutist inp (updateButterflies m inp (updateClouds s))).jumped = true := by
    simp [hj]
  have h2 : (stepParachutist inp (updateButterflies m inp (updateClouds s))).plane_stopped =
      true := by simp [hs]
  have h3 : (stepParachutist inp (updateButterflies m inp (updateClouds s))).plane_x =
      s.plane_x := by simp
  unfold update
  rw [hb]
  unfold planeDepart
  rw [h1, h2, h3]
  by_cases hx : s.plane_x ≤ WORLD_WIDTH / 2 + 0.5
  · rw [if_pos ⟨rfl, rfl, hx⟩, if_pos hx]
    exact ⟨rfl, rfl, rfl⟩
  · rw [if_neg (fun h => hx h.2.2), if_neg hx]
    exact ⟨h1, h2, h3⟩

/-- The state after the 500th tick: the plane has stopped and has already
been moved on by one step. -/
theorem jump_tick_plane (m : Libm) (inputs : ℕ → TickInput) (sd : Seed) :
    (runTicks m inputs 500 (initialState sd)).jumped = true ∧
    (runTicks m inputs 500 (initialState sd)).plane_stopped = true ∧
    (runTicks m inputs 500 (initialState sd)).plane_x = 0.005 := by
  obtain ⟨hx, hs, hj, hl, _⟩ := approach_run m inputs sd 499 le_rfl
  have h0 : 0 ≤ (runTicks m inputs 499 (initialState sd)).plane_x + 0.005 := by
    rw [hx]
    norm_num
  obtain ⟨a, _, b, _, _, _, c, _⟩ := update_of_arriving m (inputs 499) _ hs hj hl h0
  exact ⟨a, b, c⟩

/-- Ticks 500 to 1000: the plane leaves by 0.005 per tick. -/
theorem departure_run (m : Libm) (inputs : ℕ → TickInput) (sd : Seed) (k : ℕ)
    (hk : k ≤ 500) :
    (runTicks m inputs (500 + k) (initialState sd)).jumped = true ∧
    (runTicks m inputs (500 + k) (initialState sd)).plane_stopped = true ∧
    (runTicks m inputs (500 + k) (initialState sd)).plane_x = ((k : ℚ) + 1) / 200 := by
  induction k with
  | zero =>
    obtain ⟨a, b, c⟩ := jump_tick_plane m inputs sd
    refine ⟨a, b, ?_⟩
    rw [show 500 + 0 = 500 from rfl, c]
    norm_num
  | succ k ih =>
    obtain ⟨a, b, c⟩ := ih (by omega)
    have hkq : ((k : ℚ) + 1) ≤ 500 := by exact_mod_cast hk
    obtain ⟨a', b', c'⟩ := update_plane_of_jumped m (inputs (500 + k)) _ a b
    rw [if_pos (by rw [c]; norm_num [WORLD_WIDTH]; linarith), c] at c'
    rw [show 500 + (k + 1) = (500 + k) + 1 from rfl]
    simp only [runTicks]
    refine ⟨a', b', ?_⟩
    rw [c']
    push_cast
    norm_num
    ring

/-- A falling state at rest with the feet at most 0.25 above the landing
altitude is a fixed point of the fall: the drag cancels gravity. -/
theorem update_hover_fixed (m : Libm) (inp : TickInput) (s : State)
    (hj : s.jumped = true) (hl : s.landed = false) (hv : s.velocity = 0)
    (hd0 : 0 < feetDistance s) (hd1 : feetDistance s ≤ 0.25) :
    (update m inp s).jumped = true ∧ (update m inp s).landed = false ∧
    (update m inp s).velocity = 0 ∧ (update m inp s).y_pos = s.y_pos := by
  have habove : current_feet_world_y s > desired_landing_world_y := by
    unfold feetDistance at hd0
    linarith
  obtain ⟨hvel, hy, hland, hjump, _⟩ := update_of_falling m inp s hj hl
  obtain ⟨hv', hy', hland'⟩ := stepFalling_of_above inp s habove
  have hfv : fallVelocity s.velocity (current_feet_world_y s) = 0 := by
    unfold feetDistance at hd0 hd1
    rw [fallVelocity_eq, if_pos ⟨by norm_num at hd1; linarith, hd0⟩, hv,
      max_eq_left (by norm_num)]
    apply min_eq_right
    norm_num at hd1 ⊢
    linarith
  rw [hfv] at hv' hy'
  exact ⟨hjump, by rw [hland, hland', hl], by rw [hvel, hv'], by rw [hy, hy', add_zero]⟩

theorem runTicks_hover_fixed (m : Libm) (inputs : ℕ → TickInput) (s : State)
    (hj : s.jumped = true) (hl : s.landed = false) (hv : s.velocity = 0)
    (hd0 : 0 < feetDistance s) (hd1 : feetDistance s ≤ 0.25) (n : ℕ) :
    (runTicks m inputs n s).jumped = true ∧ (runTicks m inputs n s).landed = false ∧
    (runTicks m inputs n s).velocity = 0 ∧ (runTicks m inputs n s).y_pos = s.y_pos := by
  induction n with
  | zero => exact ⟨hj, hl, hv, rfl⟩
  | succ k ih =>
    obtain ⟨a, b, c, d⟩ := ih
    have e : feetDistance (runTicks m inputs k s) = feetDistance s := by
      rw [feetDistance_eq, feetDistance_eq, d]
    obtain ⟨a', b', c', d'⟩ := update_hover_fixed m (inputs k) _ a b c
      (by rw [e]; exact hd0) (by rw [e]; exact hd1)
    exact ⟨a', b', c', d'.trans d⟩

theorem collapse_floor_eq_max (x : ℚ) :
    (if x - PARACHUTE_COLLAPSE_SPEED < 0.05 then (0.05 : ℚ) else x - PARACHUTE_COLLAPSE_SPEED) =
      max (x - 0.005) 0.05 := by
  unfold PARACHUTE_COLLAPSE_SPEED
  split_ifs with h
  · exact (max_eq_right (le_of_lt h)).symm
  · exact (max_eq_left (not_lt.1 h)).symm

/-- The detach branch of `stepCollapsing` when the canopy bottom reaches the
ground: the offset is snapped and the run starts. -/
theorem stepCollapsing_of_expired_snap (s : State) (ht : ¬ s.post_land_sway_timer > 0)
    (hb : (s.y_pos + (s.parachute_relative_y_offset_after_detach - 0.0075)) -
      0.1 * max (s.parachute_current_ry_scale - 0.005) 0.05 ≤ ground_level) :
    (stepCollapsing s).parachute_current_ry_scale =
      max (s.parachute_current_ry_scale - 0.005) 0.05 ∧
    (stepCollapsing s).parachute_relative_y_offset_after_detach =
      ground_level + 0.1 * max (s.parachute_current_ry_scale - 0.005) 0.05 - s.y_pos ∧
    (stepCollapsing s).isRunning = true := by
  have hoff : s.parachute_relative_y_offset_after_detach - PARACHUTE_COLLAPSE_SPEED * 1.5 =
      s.parachute_relative_y_offset_after_detach - 0.0075 := by
    unfold PARACHUTE_COLLAPSE_SPEED
    norm_num
  unfold stepCollapsing
  dsimp only
  rw [if_neg ht, collapse_floor_eq_max, hoff, if_pos hb]
  exact ⟨rfl, rfl, rfl⟩

/-- The detach branch of `stepCollapsing` while the canopy bottom is above
the ground: the canopy shrinks and sinks. -/
theorem stepCollapsing_of_expired_sink (s : State) (ht : ¬ s.post_land_sway_timer > 0)
    (hb : ¬ (s.y_pos + (s.parachute_relative_y_offset_after_detach - 0.0075)) -
      0.1 * max (s.parachute_current_ry_scale - 0.005) 0.05 ≤ ground_level) :
    (stepCollapsing s).parachute_current_ry_scale =
      max (s.parachute_current_ry_scale - 0.005) 0.05 ∧
    (stepCollapsing s).parachute_relative_y_offset_after_detach =
      s.parachute_relative_y_offset_after_detach - 0.0075 ∧
    (stepCollapsing s).isRunning = s.isRunning := by
  have hoff : s.parachute_relative_y_offset_after_detach - PARACHUTE_COLLAPSE_SPEED * 1.5 =
      s.parachute_relative_y_offset_after_detach - 0.0075 := by
    unfold PARACHUTE_COLLAPSE_SPEED
    norm_num
  unfold stepCollapsing
  dsimp only
  rw [if_neg ht, collapse_floor_eq_max, hoff, if_neg hb]
  exact ⟨rfl, rfl, rfl⟩

/-- C16: in a landed state (which has jumped) that is not running and whose
sway timer has expired, the tick lowers the scale by 0.005, floored at 0.05,
and the detached offset by 0.0075; when the canopy bottom then lies at or
below the ground level -1.0, the offset is snapped so that the bottom is
exactly at -1.0 and `isRunning` becomes true; otherwise the lowered offset is
kept and `isRunning` stays false. -/
theorem canopy_ground_snap (m : Libm) (inp : TickInput) (s : State)
    (hj : s.jumped = true) (hl : s.landed = true) (hr : s.isRunning = false)
    (ht : s.post_land_sway_timer ≤ 0) :
    (update m inp s).parachute_current_ry_scale =
      max (s.parachute_current_ry_scale - 0.005) 0.05 ∧
    (update m inp s).y_pos = s.y_pos ∧
    ((s.y_pos + (s.parachute_relative_y_offset_after_detach - 0.0075)) -
        0.1 * max (s.parachute_current_ry_scale - 0.005) 0.05 ≤ ground_level →
      (update m inp s).y_pos + (update m inp s).parachute_relative_y_offset_after_detach -
          0.1 * (update m inp s).parachute_current_ry_scale = -1.0 ∧
        (update m inp s).isRunning = true) ∧
    (¬ (s.y_pos + (s.parachute_relative_y_offset_after_detach - 0.0075)) -
        0.1 * max (s.parachute_current_ry_scale - 0.005) 0.05 ≤ ground_level →
      (update m inp s).parachute_relative_y_offset_after_detach =
          s.parachute_relative_y_offset_after_detach - 0.0075 ∧
        (update m inp s).isRunning = false) := by
  obtain ⟨_, _, hy, _, hsc, hoff, _, hrun⟩ := update_of_collapsing m inp s hj hl hr
  have ht' : ¬ s.post_land_sway_timer > 0 := not_lt.2 ht
  have hscale : (update m inp s).parachute_current_ry_scale =
      max (s.parachute_current_ry_scale - 0.005) 0.05 := by
    by_cases hb : (s.y_pos + (s.parachute_relative_y_offset_after_detach - 0.0075)) -
        0.1 * max (s.parachute_current_ry_scale - 0.005) 0.05 ≤ ground_level
    · rw [hsc, (stepCollapsing_of_expired_snap s ht' hb).1]
    · rw [hsc, (stepCollapsing_of_expired_sink s ht' hb).1]
  refine ⟨hscale, hy, fun hb => ?_, fun hb => ?_⟩
  · obtain ⟨_, b, c⟩ := stepCollapsing_of_expired_snap s ht' hb
    refine ⟨?_, by rw [hrun, c]⟩
    rw [hy, hoff, b, hscale]
    unfold ground_level
    ring
  · obtain ⟨_, b, c⟩ := stepCollapsing_of_expired_sink s ht' hb
    exact ⟨by rw [hoff, b], by rw [hrun, c, hr]⟩

theorem canopy_ground_snap_witness :
    swayExpired.jumped = true ∧ swayExpired.landed = true ∧ swayExpired.isRunning = false ∧
    swayExpired.post_land_sway_timer ≤ 0 ∧
    (update zeroLibm sampleInput swayExpired).parachute_current_ry_scale =
      max (swayExpired.parachute_current_ry_scale - 0.005) 0.05 ∧
    (update zeroLibm sampleInput swayExpired).y_pos +
        (update zeroLibm sampleInput swayExpired).parachute_relative_y_offset_after_detach -
        0.1 * (update zeroLibm sampleInput swayExpired).parachute_current_ry_scale = -1.0 ∧
    (update zeroLibm sampleInput swayExpired).isRunning = true := by
  have ht : swayExpired.post_land_sway_timer ≤ 0 := by
    show (0.0 : ℚ) ≤ 0
    norm_num
  have hb : (swayExpired.y_pos + (swayExpired.parachute_relative_y_offset_after_detach - 0.0075)) -
      0.1 * max (swayExpired.parachute_current_ry_scale - 0.005) 0.05 ≤ ground_level := by
    show ((desired_landing_world_y - human_feet_relative_y) + ((0.15 : ℚ) - 0.0075)) -
      0.1 * max ((1.0 : ℚ) - 0.005) 0.05 ≤ ground_level
    rw [desired_landing_world_y_eq, human_feet_relative_y_eq, max_eq_left (by norm_num)]
    unfold ground_level
    norm_num
  have h := canopy_ground_snap zeroLibm sampleInput swayExpired rfl rfl rfl ht
  exact ⟨rfl, rfl, rfl, ht, h.1, (h.2.2.1 hb).1, (h.2.2.1 hb).2⟩

/-- C17: in a falling state whose feet (`y_pos - 0.1425`) are at or below
the landing altitude -1.35, the tick sets `y_pos` to -1.2075, the velocity to
0, `landed` to true and the sway timer to 2.0; in a falling state whose feet
are above it, `landed` stays false. -/
theorem landing_event (m : Libm) (inp : TickInput) (s : State)
    (hj : s.jumped = true) (hl : s.landed = false) :
    current_feet_world_y s = s.y_pos - 0.1425 ∧ desired_landing_world_y = -1.35 ∧
    (current_feet_world_y s ≤ desired_landing_world_y →
      (update m inp s).y_pos = -1.2075 ∧ (update m inp s).velocity = 0 ∧
      (update m inp s).landed = true ∧ (update m inp s).post_land_sway_timer = 2.0) ∧
    (desired_landing_world_y < current_feet_world_y s → (update m inp s).landed = false) := by
  obtain ⟨hv, hy, hland, _, _⟩ := update_of_falling m inp s hj hl
  have ht := update_of_falling_timer m inp s hj hl
  refine ⟨?_, desired_landing_world_y_eq, fun h => ?_, fun h => ?_⟩
  · rw [current_feet_world_y, human_feet_relative_y_eq]
    norm_num
    ring
  · obtain ⟨a, b, c, d⟩ := stepFalling_of_not_above inp s (not_lt.2 h)
    refine ⟨?_, ?_, by rw [hland, c], ?_⟩
    · rw [hy, b, desired_landing_world_y_eq, human_feet_relative_y_eq]
      norm_num
    · rw [hv, a]
      norm_num
    · rw [ht, d]
      rfl
  · obtain ⟨_, _, c⟩ := stepFalling_of_above inp s h
    rw [hland, c, hl]

theorem landing_event_witness :
    touchdownState.jumped = true ∧ touchdownState.landed = false ∧
    current_feet_world_y touchdownState ≤ desired_landing_world_y ∧
    (update zeroLibm sampleInput touchdownState).y_pos = -1.2075 ∧
    (update zeroLibm sampleInput touchdownState).landed = true ∧
    desired_landing_world_y < current_feet_world_y scenarioB ∧
    (update zeroLibm sampleInput scenarioB).landed = false := by
  have h1 : current_feet_world_y touchdownState ≤ desired_landing_world_y := by
    show (-1.2075 : ℚ) + human_feet_relative_y ≤ desired_landing_world_y
    rw [desired_landing_world_y_eq, human_feet_relative_y_eq]
    norm_num
  have h2 : desired_landing_world_y < current_feet_world_y scenarioB := by
    show desired_landing_world_y < (1.45 : ℚ) + human_feet_relative_y
    rw [desired_landing_world_y_eq, human_feet_relative_y_eq]
    norm_num
  have ha := (landing_event zeroLibm sampleInput touchdownState rfl rfl).2.2.1 h1
  have hb := (landing_event zeroLibm sampleInput scenarioB rfl rfl).2.2.2 h2
  exact ⟨rfl, rfl, h1, ha.1, ha.2.2.1, h2, hb⟩

/-- Once the plane is beyond `WORLD_WIDTH / 2 + 0.5`, no tick moves it. -/
theorem runTicks_plane_at_rest (m : Libm) (inputs : ℕ → TickInput) (s : State)
    (hj : s.jumped = true) (hs : s.plane_stopped = true)
    (hx : WORLD_WIDTH / 2 + 0.5 < s.plane_x) (n : ℕ) :
    (runTicks m inputs n s).jumped = true ∧ (runTicks m inputs n s).plane_stopped = true ∧
    (runTicks m inputs n s).plane_x = s.plane_x := by
  induction n with
  | zero => exact ⟨hj, hs, rfl⟩
  | succ k ih =>
    obtain ⟨a, b, c⟩ := ih
    obtain ⟨a', b', c'⟩ := update_plane_of_jumped m (inputs k) _ a b
    rw [if_neg (by rw [c]; exact not_le.2 hx), c] at c'
    exact ⟨a', b', c'⟩

/-- C18, as written, fails: the state left by the 1000th tick of the sample
run is reachable, the jump has happened, the plane is beyond 2.5, and the
next tick leaves it where it is instead of adding 0.005. -/
theorem plane_stops_past_edge :
    Reachable zeroLibm planeGoneState ∧
    planeGoneState.jumped = true ∧ planeGoneState.plane_stopped = true ∧
    2.5 < planeGoneState.plane_x ∧
    (update zeroLibm sampleInput planeGoneState).plane_x = planeGoneState.plane_x ∧
    (update zeroLibm sampleInput planeGoneState).plane_x ≠ planeGoneState.plane_x + 0.005 := by
  obtain ⟨a, b, c⟩ := departure_run zeroLibm sampleInputs zeroSeed 500 le_rfl
  have hx : 2.5 < planeGoneState.plane_x := by
    show 2.5 < (runTicks zeroLibm sampleInputs (500 + 500) (initialState zeroSeed)).plane_x
    rw [c]
    norm_num
  obtain ⟨_, _, c'⟩ := update_plane_of_jumped zeroLibm sampleInput planeGoneState a b
  rw [if_neg (by norm_num [WORLD_WIDTH] at hx ⊢; exact hx)] at c'
  refine ⟨reachable_runTicks zeroLibm sampleInputs zeroSeed 1000, a, b, hx, c', ?_⟩
  rw [c']
  norm_num

/-- C18, amended: once the jump has happened, a tick adds 0.005 to `plane_x`
as long as `plane_x` is at most `WORLD_WIDTH / 2 + 0.5 = 2.5`, and leaves it
as it is once it is greater; so the plane goes past the visible right edge
and then stays where it is, after any number of further ticks. -/
theorem plane_departure (m : Libm) (inp : TickInput) (inputs : ℕ → TickInput) (n : ℕ)
    (s : State) (hj : s.jumped = true) (hs : s.plane_stopped = true) :
    (s.plane_x ≤ 2.5 → (update m inp s).plane_x = s.plane_x + 0.005) ∧
    (2.5 < s.plane_x → (update m inp s).plane_x = s.plane_x) ∧
    (2.5 < s.plane_x → (runTicks m inputs n s).plane_x = s.plane_x) ∧
    (update m inp s).jumped = true ∧ (update m inp s).plane_stopped = true := by
  obtain ⟨a, b, c⟩ := update_plane_of_jumped m inp s hj hs
  have hw : WORLD_WIDTH / 2 + 0.5 = 2.5 := by norm_num [WORLD_WIDTH]
  refine ⟨fun h => ?_, fun h => ?_, fun h => ?_, a, b⟩
  · rw [c, hw, if_pos h]
  · rw [c, hw, if_neg (not_le.2 h)]
  · exact (runTicks_plane_at_rest m inputs s hj hs (by rw [hw]; exact h) n).2.2

theorem plane_departure_witness :
    scenarioB.jumped = true ∧ scenarioB.plane_stopped = true ∧ scenarioB.plane_x ≤ 2.5 ∧
    (update zeroLibm sampleInput scenarioB).plane_x = scenarioB.plane_x + 0.005 ∧
    planeGoneState.jumped = true ∧ planeGoneState.plane_stopped = true ∧
    2.5 < planeGoneState.plane_x ∧
    (runTicks zeroLibm sampleInputs 1000 planeGoneState).plane_x = planeGoneState.plane_x := by
  have hx : scenarioB.plane_x ≤ 2.5 := by
    show (0.0 : ℚ) ≤ 2.5
    norm_num
  obtain ⟨a, b, c⟩ := departure_run zeroLibm sampleInputs zeroSeed 500 le_rfl
  have hg : 2.5 < planeGoneState.plane_x := by
    show 2.5 < (runTicks zeroLibm sampleInputs (500 + 500) (initialState zeroSeed)).plane_x
    rw [c]
    norm_num
  exact ⟨rfl, rfl, hx,
    (plane_departure zeroLibm sampleInput sampleInputs 0 scenarioB rfl rfl).1 hx, a, b, hg,
    (plane_departure zeroLibm sampleInput sampleInputs 1000 planeGoneState a b).2.2.1 hg⟩

/-- C19: with `sin` and `cos` between -1 and 1, a butterfly whose spawn point
and amplitudes lie in the ranges of `initButterflies` is, after the loop body
at any clock value, within its amplitudes of its spawn point on both axes, at
the position the oscillation gives (neither wrap test fires), and its wing
angle lies in [-45, 45]. -/
theorem butterflies_stay_near_spawn (m : Libm) (t : ℚ) (b : Butterfly)
    (hm : SinCosBounded m) (hb : InSpawnRange b) :
    |(updateButterfly m t b).x - (updateButterfly m t b).initial_spawn_x| ≤
      (updateButterfly m t b).flight_amplitude_x ∧
    |(updateButterfly m t b).y - (updateButterfly m t b).initial_spawn_y| ≤
      (updateButterfly m t b).flight_amplitude_y ∧
    (updateButterfly m t b).x = b.initial_spawn_x +
      b.flight_amplitude_x * m.sin (t * b.flight_speed_mult_x + b.flight_phase_offset) ∧
    (updateButterfly m t b).y = b.initial_spawn_y +
      b.flight_amplitude_y * m.cos (t * b.flight_speed_mult_y + b.flight_phase_offset * 1.5) ∧
    (-45 ≤ (updateButterfly m t b).wing_angle ∧ (updateButterfly m t b).wing_angle ≤ 45) ∧
    InSpawnRange (updateButterfly m t b) := by
  obtain ⟨ex, ey, hx, hy⟩ := updateButterfly_near_spawn m t b hm hb
  obtain ⟨⟨hs0, hs1⟩, _⟩ := hm (t * 5.0 + b.flight_phase_offset * 2.0)
  refine ⟨hx, hy, ex, ey, ?_, hb⟩
  show -45 ≤ 45.0 * m.sin (t * 5.0 + b.flight_phase_offset * 2.0) ∧
    45.0 * m.sin (t * 5.0 + b.flight_phase_offset * 2.0) ≤ 45
  constructor <;> norm_num <;> linarith

theorem butterflies_stay_near_spawn_witness :
    SinCosBounded extremeLibm ∧ InSpawnRange (newButterfly zeroSeed 0) ∧
    |(updateButterfly extremeLibm 0 (newButterfly zeroSeed 0)).x -
        (updateButterfly extremeLibm 0 (newButterfly zeroSeed 0)).initial_spawn_x| ≤
      (updateButterfly extremeLibm 0 (newButterfly zeroSeed 0)).flight_amplitude_x ∧
    (-45 ≤ (updateButterfly extremeLibm 0 (newButterfly zeroSeed 0)).wing_angle ∧
      (updateButterfly extremeLibm 0 (newButterfly zeroSeed 0)).wing_angle ≤ 45) :=
  have h := butterflies_stay_near_spawn extremeLibm 0 (newButterfly zeroSeed 0)
    extremeLibm_bounded (zeroSeed_newButterfly_inSpawnRange 0)
  ⟨extremeLibm_bounded, zeroSeed_newButterfly_inSpawnRange 0, h.1, h.2.2.2.2.1⟩

/-- C20: a falling state at rest (`velocity = 0`) whose feet are a distance
`d` with `0 < d ≤ 0.25` above the landing altitude is left by the tick with
the same altitude and velocity and with `landed` false; so after any number
of ticks, with any inputs, it is still there and has not landed. -/
theorem hover_fixed_point (m : Libm) (inp : TickInput) (inputs : ℕ → TickInput) (s : State)
    (n : ℕ) (hj : s.jumped = true) (hl : s.landed = false) (hv : s.velocity = 0)
    (hd0 : 0 < feetDistance s) (hd1 : feetDistance s ≤ 0.25) :
    feetDistance s = (s.y_pos - 0.1425) - (-1.35) ∧
    ((update m inp s).y_pos = s.y_pos ∧ (update m inp s).velocity = s.velocity ∧
      (update m inp s).landed = false) ∧
    ((runTicks m inputs n s).y_pos = s.y_pos ∧ (runTicks m inputs n s).velocity = s.velocity ∧
      (runTicks m inputs n s).landed = false) := by
  obtain ⟨_, b, c, d⟩ := update_hover_fixed m inp s hj hl hv hd0 hd1
  obtain ⟨_, b', c', d'⟩ := runTicks_hover_fixed m inputs s hj hl hv hd0 hd1 n
  refine ⟨?_, ⟨d, by rw [c, hv], b⟩, ⟨d', by rw [c', hv], b'⟩⟩
  rw [feetDistance_eq]
  norm_num
  ring

theorem hover_fixed_point_witness :
    hoverState.jumped = true ∧ hoverState.landed = false ∧ hoverState.velocity = 0 ∧
    0 < feetDistance hoverState ∧ feetDistance hoverState ≤ 0.25 ∧
    (update zeroLibm sampleInput hoverState).y_pos = hoverState.y_pos ∧
    (runTicks zeroLibm sampleInputs 1000 hoverState).landed = false := by
  have hv : hoverState.velocity = 0 := by
    show (0.0 : ℚ) = 0
    norm_num
  have hd : feetDistance hoverState = 0.25 := by
    rw [feetDistance_eq]
    show (-0.9575 : ℚ) + 1.2075 = 0.25
    norm_num
  have hd0 : 0 < feetDistance hoverState := by rw [hd]; norm_num
  have hd1 : feetDistance hoverState ≤ 0.25 := by rw [hd]
  have h := hover_fixed_point zeroLibm sampleInput sampleInputs hoverState 1000 rfl rfl hv hd0 hd1
  exact ⟨rfl, rfl, hv, hd0, hd1, h.2.1.1, h.2.2.2.2⟩

/-! ### The detach tick, the independence of the vertical motion, the jump timing -/

theorem update_detaching_of_expired (m : Libm) (inp : TickInput) (s : State)
    (hj : s.jumped = true) (hl : s.landed = true) (hr : s.isRunning = false)
    (ht : s.post_land_sway_timer ≤ 0) :
    (update m inp s).parachute_detaching_and_falling = true := by
  obtain ⟨_, _, _, _, _, _, hd, _⟩ := update_of_collapsing m inp s hj hl hr
  rw [hd, (stepCollapsing_of_expired s (not_lt.2 ht)).2]

/-- C21: in a landed state (which has jumped) that is not running, stands at
the landing altitude `y_pos = -1.2075`, has an expired sway timer and a
detached offset of at most 0.15, one tick sets both
`parachute_detaching_and_falling` and `isRunning`, and the offset it leaves
is the snapped one, 0.2075 plus 0.1 times the new scale, which is greater
than the attached offset 0.15: the canopy is moved up. This holds for every
scale, the new one being floored at 0.05. -/
theorem detach_in_one_tick (m : Libm) (inp : TickInput) (s : State)
    (hj : s.jumped = true) (hl : s.landed = true) (hr : s.isRunning = false)
    (hy : s.y_pos = -1.2075) (ht : s.post_land_sway_timer ≤ 0)
    (ho : s.parachute_relative_y_offset_after_detach ≤ 0.15) :
    (update m inp s).parachute_detaching_and_falling = true ∧
    (update m inp s).isRunning = true ∧
    (update m inp s).parachute_relative_y_offset_after_detach =
      0.2075 + 0.1 * (update m inp s).parachute_current_ry_scale ∧
    (update m inp s).parachute_current_ry_scale =
      max (s.parachute_current_ry_scale - 0.005) 0.05 ∧
    0.15 < (update m inp s).parachute_relative_y_offset_after_detach := by
  obtain ⟨_, _, _, _, hsc, hoff, _, hrun⟩ := update_of_collapsing m inp s hj hl hr
  have ht' : ¬ s.post_land_sway_timer > 0 := not_lt.2 ht
  have hfloor : (0.05 : ℚ) ≤ max (s.parachute_current_ry_scale - 0.005) 0.05 := le_max_right _ _
  have hb : (s.y_pos + (s.parachute_relative_y_offset_after_detach - 0.0075)) -
      0.1 * max (s.parachute_current_ry_scale - 0.005) 0.05 ≤ ground_level := by
    rw [hy]
    unfold ground_level
    generalize max (s.parachute_current_ry_scale - 0.005) 0.05 = sc at hfloor ⊢
    norm_num at ho hfloor ⊢
    linarith
  obtain ⟨a, b, c⟩ := stepCollapsing_of_expired_snap s ht' hb
  have hscale : (update m inp s).parachute_current_ry_scale =
      max (s.parachute_current_ry_scale - 0.005) 0.05 := by rw [hsc, a]
  have hoffset : (update m inp s).parachute_relative_y_offset_after_detach =
      0.2075 + 0.1 * (update m inp s).parachute_current_ry_scale := by
    rw [hoff, b, hscale, hy]
    unfold ground_level
    norm_num
    ring
  refine ⟨update_detaching_of_expired m inp s hj hl hr ht, by rw [hrun, c], hoffset, hscale, ?_⟩
  rw [hoffset, hscale]
  generalize max (s.parachute_current_ry_scale - 0.005) 0.05 = sc at hfloor ⊢
  norm_num at hfloor ⊢
  linarith

theorem detach_in_one_tick_witness :
    swayExpired.jumped = true ∧ swayExpired.landed = true ∧ swayExpired.isRunning = false ∧
    swayExpired.y_pos = -1.2075 ∧ swayExpired.post_land_sway_timer ≤ 0 ∧
    swayExpired.parachute_relative_y_offset_after_detach ≤ 0.15 ∧
    0.05 ≤ swayExpired.parachute_current_ry_scale ∧
    (update zeroLibm sampleInput swayExpired).parachute_detaching_and_falling = true ∧
    (update zeroLibm sampleInput swayExpired).isRunning = true ∧
    0.15 < (update zeroLibm sampleInput swayExpired).parachute_relative_y_offset_after_detach := by
  have hy : swayExpired.y_pos = -1.2075 := by
    show desired_landing_world_y - human_feet_relative_y = -1.2075
    rw [desired_landing_world_y_eq, human_feet_relative_y_eq]
    norm_num
  have ht : swayExpired.post_land_sway_timer ≤ 0 := by
    show (0.0 : ℚ) ≤ 0
    norm_num
  have ho : swayExpired.parachute_relative_y_offset_after_detach ≤ 0.15 := by
    show (0.15 : ℚ) ≤ 0.15
    exact le_rfl
  have hs : 0.05 ≤ swayExpired.parachute_current_ry_scale := by
    show (0.05 : ℚ) ≤ 1.0
    norm_num
  have h := detach_in_one_tick zeroLibm sampleInput swayExpired rfl rfl rfl hy ht ho
  exact ⟨rfl, rfl, rfl, hy, ht, ho, hs, h.1, h.2.1, h.2.2.2.2⟩

theorem planeApproach_agree (s t : State) (h : VerticalAgree s t) :
    VerticalAgree (planeApproach s) (planeApproach t) := by
  obtain ⟨h1, h2, h3, h4, h5, h6⟩ := h
  unfold VerticalAgree planeApproach
  dsimp only
  rw [h1, h2, h3]
  split_ifs <;> refine ⟨?_, ?_, ?_, ?_, ?_, ?_⟩ <;>
    first | rfl | exact h1 | exact h2 | exact h3 | exact h4 | exact h5 | exact h6

theorem triggerJump_agree (s t : State) (h : VerticalAgree s t) :
    VerticalAgree (triggerJump s) (triggerJump t) := by
  obtain ⟨h1, h2, h3, h4, h5, h6⟩ := h
  unfold VerticalAgree triggerJump
  rw [h2, h3]
  split_ifs <;> refine ⟨?_, ?_, ?_, ?_, ?_, ?_⟩ <;>
    first | rfl | exact h1 | exact h2 | exact h3 | exact h4 | exact h5 | exact h6

theorem stepFalling_agree (i1 i2 : TickInput) (s t : State) (h : VerticalAgree s t) :
    VerticalAgree (stepFalling i1 s) (stepFalling i2 t) := by
  obtain ⟨h1, h2, h3, h4, h5, h6⟩ := h
  unfold VerticalAgree stepFalling current_feet_world_y
  dsimp only
  rw [h5, h6]
  split_ifs <;> refine ⟨?_, ?_, ?_, ?_, ?_, ?_⟩ <;>
    first | rfl | exact h1 | exact h2 | exact h3 | exact h4

theorem stepParachutist_agree (i1 i2 : TickInput) (s t : State) (h : VerticalAgree s t) :
    VerticalAgree (stepParachutist i1 s) (stepParachutist i2 t) := by
  have hf := stepFalling_agree i1 i2 s t h
  obtain ⟨h1, h2, h3, h4, h5, h6⟩ := h
  unfold stepParachutist
  rw [h3, h4]
  by_cases hj : t.jumped = true
  · rw [if_pos hj, if_pos hj]
    by_cases hl : (!t.landed) = true
    · rw [if_pos hl, if_pos hl]
      exact hf
    · rw [if_neg hl, if_neg hl]
      have hs : ∀ u : State, VerticalAgree (if (!u.isRunning) = true then stepCollapsing u
          else stepRunning u) u := by
        intro u
        unfold VerticalAgree
        split_ifs <;> simp
      have a := hs s
      have b := hs t
      unfold VerticalAgree at a b ⊢
      obtain ⟨a1, a2, a3, a4, a5, a6⟩ := a
      obtain ⟨b1, b2, b3, b4, b5, b6⟩ := b
      exact ⟨by rw [a1, b1, h1], by rw [a2, b2, h2], by rw [a3, b3, (by rw [h3] : s.jumped = t.jumped)],
        by rw [a4, b4, (by rw [h4] : s.landed = t.landed)], by rw [a5, b5, h5], by rw [a6, b6, h6]⟩
  · rw [if_neg hj, if_neg hj]
    exact ⟨h1, h2, h3, h4, h5, h6⟩

theorem planeDepart_agree (s t : State) (h : VerticalAgree s t) :
    VerticalAgree (planeDepart s) (planeDepart t) := by
  obtain ⟨h1, h2, h3, h4, h5, h6⟩ := h
  unfold VerticalAgree planeDepart
  rw [h1, h2, h3]
  split_ifs <;> refine ⟨?_, ?_, ?_, ?_, ?_, ?_⟩ <;>
    first | rfl | exact h1 | exact h2 | exact h3 | exact h4 | exact h5 | exact h6

/-- The scenery blocks leave the plane and the vertical motion alone. -/
theorem scenery_agree (m : Libm) (inp : TickInput) (s : State) :
    VerticalAgree (updateButterflies m inp (updateClouds s)) s :=
  ⟨rfl, rfl, rfl, rfl, rfl, rfl⟩

theorem VerticalAgree.trans3 {a b c d : State} (h1 : VerticalAgree a b) (h2 : VerticalAgree b c)
    (h3 : VerticalAgree d c) : VerticalAgree a d := by
  unfold VerticalAgree at *
  obtain ⟨a1, a2, a3, a4, a5, a6⟩ := h1
  obtain ⟨b1, b2, b3, b4, b5, b6⟩ := h2
  obtain ⟨c1, c2, c3, c4, c5, c6⟩ := h3
  exact ⟨by rw [a1, b1, c1], by rw [a2, b2, c2], by rw [a3, b3, c3], by rw [a4, b4, c4],
    by rw [a5, b5, c5], by rw [a6, b6, c6]⟩

/-- A tick maps states that agree on the plane and the vertical motion to
states that agree on them, whatever else differs. -/
theorem update_agree (m1 m2 : Libm) (i1 i2 : TickInput) (s t : State) (h : VerticalAgree s t) :
    VerticalAgree (update m1 i1 s) (update m2 i2 t) := by
  have h0 : VerticalAgree (updateButterflies m1 i1 (updateClouds s))
      (updateButterflies m2 i2 (updateClouds t)) :=
    VerticalAgree.trans3 (scenery_agree m1 i1 s) h (scenery_agree m2 i2 t)
  unfold update beforeParachutist
  exact planeDepart_agree _ _ (stepParachutist_agree i1 i2 _ _
    (triggerJump_agree _ _ (planeApproach_agree _ _ h0)))

/-- C22: when two states agree on `plane_x`, `plane_stopped`, `jumped`,
`landed`, `y_pos` and `velocity`, one tick gives them the same `y_pos`,
`velocity`, `jumped` and `landed` (and the same plane position and
`plane_stopped`), whatever their wind strengths, drifts and other variables
and whatever the random draws, clock values and values of `sin` and `cos` of
the two ticks. -/
theorem vertical_motion_independent (m1 m2 : Libm) (i1 i2 : TickInput) (s t : State)
    (h : VerticalAgree s t) :
    (update m1 i1 s).y_pos = (update m2 i2 t).y_pos ∧
    (update m1 i1 s).velocity = (update m2 i2 t).velocity ∧
    (update m1 i1 s).jumped = (update m2 i2 t).jumped ∧
    (update m1 i1 s).landed = (update m2 i2 t).landed ∧
    VerticalAgree (update m1 i1 s) (update m2 i2 t) := by
  have hu := update_agree m1 m2 i1 i2 s t h
  exact ⟨hu.2.2.2.2.1, hu.2.2.2.2.2, hu.2.2.1, hu.2.2.2.1, hu⟩

theorem vertical_motion_independent_witness :
    VerticalAgree scenarioB scenarioBWindy ∧
    scenarioB.wind_strength = 0.0 ∧ scenarioBWindy.wind_strength = 5.0 ∧
    (update zeroLibm sampleInput scenarioB).y_pos =
      (update extremeLibm otherInput scenarioBWindy).y_pos ∧
    (update zeroLibm sampleInput scenarioB).velocity =
      (update extremeLibm otherInput scenarioBWindy).velocity :=
  have hv : VerticalAgree scenarioB scenarioBWindy := ⟨rfl, rfl, rfl, rfl, rfl, rfl⟩
  have h := vertical_motion_independent zeroLibm extremeLibm sampleInput otherInput
    scenarioB scenarioBWindy hv
  ⟨hv, rfl, rfl, h.1, h.2.1⟩

theorem keyboard_no_reset_frame (sd : Seed) (c : Char) (s : State)
    (hc : c ≠ 'r' ∧ c ≠ 'R') :
    (keyboard sd c s).plane_x = s.plane_x ∧ (keyboard sd c s).plane_stopped = s.plane_stopped ∧
    (keyboard sd c s).jumped = s.jumped ∧ (keyboard sd c s).landed = s.landed := by
  unfold keyboard
  rw [if_neg (by rintro (h | h); exacts [hc.1 h, hc.2 h])]
  split_ifs <;> exact ⟨rfl, rfl, rfl, rfl⟩

theorem keyboard_planeInv (sd : Seed) (c : Char) (s : State) (n : ℕ)
    (hc : c ≠ 'r' ∧ c ≠ 'R') (h : PlaneInv n s) : PlaneInv n (keyboard sd c s) := by
  obtain ⟨a, b, c', d⟩ := keyboard_no_reset_frame sd c s hc
  unfold PlaneInv at h ⊢
  rw [a, b, c', d]
  exact h

theorem update_planeInv (m : Libm) (inp : TickInput) (s : State) (n : ℕ)
    (h : PlaneInv n s) : PlaneInv (n + 1) (update m inp s) := by
  obtain ⟨hlo, hhi⟩ := h
  rcases Nat.lt_or_ge n 499 with hn | hn
  · obtain ⟨hx, hs, hj, hl⟩ := hlo (by omega)
    have hnq : ((n : ℚ) + 1) ≤ 499 := by exact_mod_cast hn
    have hlt : s.plane_x + 0.005 < 0 := by
      rw [hx]
      norm_num
      linarith
    rw [update_of_approaching m inp s hs hj hlt]
    refine ⟨fun _ => ⟨?_, by simpa using hs, by simpa using hj, by simpa using hl⟩,
      fun h => absurd h (by omega)⟩
    show s.plane_x + 0.005 = _
    rw [hx]
    push_cast
    ring
  · rcases Nat.eq_or_lt_of_le hn with he | hgt
    · obtain ⟨hx, hs, hj, hl⟩ := hlo (by omega)
      have h0 : 0 ≤ s.plane_x + 0.005 := by
        rw [hx, ← he]
        norm_num
      obtain ⟨a, _, b, _⟩ := update_of_arriving m inp s hs hj hl h0
      exact ⟨fun h => absurd h (by omega), fun _ => ⟨a, b⟩⟩
    · obtain ⟨hj, hs⟩ := hhi (by omega)
      obtain ⟨a, b, _⟩ := update_plane_of_jumped m inp s hj hs
      exact ⟨fun h => absurd h (by omega), fun _ => ⟨a, b⟩⟩

theorem initialState_planeInv (sd : Seed) : PlaneInv 0 (initialState sd) := by
  refine ⟨fun _ => ⟨?_, rfl, rfl, rfl⟩, fun h => absurd h (by norm_num)⟩
  simp only [initialState]
  norm_num

theorem runEvents_planeInv (m : Libm) (es : List Event) :
    ∀ (n : ℕ) (s : State), NoReset es → PlaneInv n s →
      PlaneInv (n + tickCount es) (runEvents m es s) := by
  induction es with
  | nil => intro n s _ h; exact h
  | cons e es ih =>
    intro n s hk h
    cases e with
    | tick inp =>
      have := ih (n + 1) (update m inp s) hk (update_planeInv m inp s n h)
      rw [show n + tickCount (Event.tick inp :: es) = n + 1 + tickCount es by
        simp only [tickCount]; omega]
      exact this
    | key sd c =>
      exact ih n (keyboard sd c s) hk.2 (keyboard_planeInv sd c s n hk.1 h)

theorem tickCount_append (es fs : List Event) :
    tickCount (es ++ fs) = tickCount es + tickCount fs := by
  induction es with
  | nil => simp [tickCount]
  | cons e es ih =>
    cases e with
    | tick inp =>
      show tickCount (es ++ fs) + 1 = tickCount es + 1 + tickCount fs
      rw [ih]
      omega
    | key sd c => exact ih

theorem tickCount_replicate (n : ℕ) (inp : TickInput) :
    tickCount (List.replicate n (Event.tick inp)) = n := by
  induction n with
  | zero => rfl
  | succ k ih => simp only [List.replicate, tickCount, ih]

theorem noReset_append (es fs : List Event) (h1 : NoReset es) (h2 : NoReset fs) :
    NoReset (es ++ fs) := by
  induction es with
  | nil => exact h2
  | cons e es ih =>
    cases e with
    | tick inp => exact ih h1
    | key sd c => exact ⟨h1.1, ih h1.2⟩

theorem noReset_replicate (n : ℕ) (inp : TickInput) :
    NoReset (List.replicate n (Event.tick inp)) := by
  induction n with
  | zero => trivial
  | succ k ih => exact ih

theorem sampleEvents_noReset : NoReset sampleEvents :=
  ⟨by decide, noReset_append _ _ (noReset_replicate 499 sampleInput) ⟨by decide, trivial⟩⟩

theorem sampleEvents_tickCount : tickCount sampleEvents = 500 := by
  show tickCount (List.replicate 499 (Event.tick sampleInput) ++
    [Event.key zeroSeed '-', Event.tick sampleInput]) = 500
  rw [tickCount_append, tickCount_replicate]
  rfl

/-- C23: in a run from the initial state made of ticks and of key presses
other than `r` and `R` (the wind keys among them), in any order and with any
inputs, `jumped` and `plane_stopped` are false as long as at most 499 ticks
have run and both true once 500 ticks have run. -/
theorem jump_timing (m : Libm) (sd : Seed) (es : List Event) (hk : NoReset es) :
    (tickCount es ≤ 499 →
      (runEvents m es (initialState sd)).jumped = false ∧
      (runEvents m es (initialState sd)).plane_stopped = false) ∧
    (500 ≤ tickCount es →
      (runEvents m es (initialState sd)).jumped = true ∧
      (runEvents m es (initialState sd)).plane_stopped = true) := by
  have h := runEvents_planeInv m es 0 (initialState sd) hk (initialState_planeInv sd)
  rw [Nat.zero_add] at h
  exact ⟨fun hn => ⟨(h.1 hn).2.2.1, (h.1 hn).2.1⟩, h.2⟩

theorem jump_timing_witness :
    NoReset sampleEvents ∧ 500 ≤ tickCount sampleEvents ∧
    (runEvents zeroLibm sampleEvents (initialState zeroSeed)).jumped = true ∧
    (runEvents zeroLibm sampleEvents (initialState zeroSeed)).plane_stopped = true :=
  ⟨sampleEvents_noReset, le_of_eq sampleEvents_tickCount.symm,
    (jump_timing zeroLibm zeroSeed sampleEvents sampleEvents_noReset).2
      (le_of_eq sampleEvents_tickCount.symm)⟩

end ParachuteSim
